import Mathlib

/-!
Verification development for the secure-local-storage envelope state machine.

The TypeScript sources are shallowly embedded:
* the persisted bundle (`Header`, `DataSection`, `PersistedConfig`) mirrors
  `src/types.ts`;
* `VersionManager` (validation and AAD construction) mirrors
  `src/api/sls/VersionManager.ts`;
* the AES-GCM cipher is an external primitive (WebCrypto) and is modelled
  symbolically with a ledger (`CryptoState`): every encryption or wrap mints
  fresh output strings and records which (key, plaintext, aad) they stand for;
  decryption and unwrap succeed exactly when key and aad match the record.
  Randomness (`crypto.getRandomValues`, `generateKey`) is modelled by a
  monotone counter whose outputs are rendered through the injective `mint`.
* `deriveKekFromPassword` mirrors `src/crypto/KeyDerivation.ts`: the Argon2id
  call itself is external, so a derived KEK is identified symbolically by its
  inputs (password, salt bytes, rounds).
-/

namespace SLS

/-- Error taxonomy of `src/errors.ts`.  Only the `ImportError` message is kept
because claims distinguish the size-guard message from the parse message. -/
inductive SlsErr where
  | validation : SlsErr
  | locked : SlsErr
  | mode : SlsErr
  | crypto : SlsErr
  | importErr : String → SlsErr
  | exportErr : SlsErr
  | notSupported : SlsErr
  deriving DecidableEq, Repr

/-- JSON-like payload values: the result of `toPlainJson`, i.e. what actually
gets serialized into an AES-GCM plaintext. -/
inductive Json where
  | null : Json
  | bool : Bool → Json
  | num : Int → Json
  | str : String → Json
  | arr : List Json → Json
  | obj : List (String × Json) → Json

/-- Symbolic key identities.  `fresh n` is the n-th key produced by
`crypto.subtle.generateKey` (DEKs and device KEKs); `derived` identifies an
Argon2id-derived KEK by its exact KDF inputs. -/
inductive KeyId where
  | fresh : Nat → KeyId
  | derived : String → List Nat → Nat → KeyId
  deriving DecidableEq, Repr

/-- Injective rendering of the RNG counter into strings: the model of a
freshly produced base64 string (nonce, wrapped blob, ciphertext, salt).
`mint n` has length `n + 1`, so distinct counters give distinct strings. -/
def mint (n : Nat) : String :=
  String.mk (List.replicate (n + 1) 'r')

theorem mint_length (n : Nat) : (mint n).length = n + 1 := by
  simp [mint, String.length]

theorem mint_injective : Function.Injective mint := by
  intro a b h
  have := congrArg String.length h
  simpa [mint_length] using this

theorem mint_ne_empty (n : Nat) : mint n ≠ "" := by
  intro h
  have := congrArg String.length h
  simp [mint_length] at this

/-- Ledger record for one AES-GCM data encryption: which key, which plaintext
object (post-serialization) and which AAD produced a given (iv, ciphertext)
pair of base64 strings. -/
structure CtRec where
  key : KeyId
  pt : Json
  aad : Option String

/-- Ledger record for one AES-GCM key wrap: which KEK, which DEK and which
AAD produced a given (ivWrap, wrappedKey) pair of base64 strings. -/
structure WrapRec where
  kek : KeyId
  dek : KeyId
  aad : Option String
  deriving DecidableEq, Repr

/-- The symbolic state of the external cipher and RNG: a monotone counter and
the two ledgers.  New records are prepended, so lookups find the newest
binding first (fresh strings never collide with old ones anyway). -/
structure CryptoState where
  nextId : Nat
  wraps : List ((String × String) × WrapRec)
  cts : List ((String × String) × CtRec)

def lookupWrap (cs : CryptoState) (k : String × String) : Option WrapRec :=
  match cs.wraps.find? (fun p => p.1 == k) with
  | some p => some p.2
  | none => none

def lookupCt (cs : CryptoState) (k : String × String) : Option CtRec :=
  match cs.cts.find? (fun p => p.1 == k) with
  | some p => some p.2
  | none => none

/-- `crypto.subtle.generateKey` (model): a fresh symbolic key. -/
def genKey (cs : CryptoState) : KeyId × CryptoState :=
  (KeyId.fresh cs.nextId, { cs with nextId := cs.nextId + 1 })

/-- Modelled from the spec: `EncryptionManager.encryptData(key, obj, aad?)`
(spec section 4.1, `encrypt(key, obj, aad?) -> (iv(12B), ciphertext)`).  The
revisions of `src/crypto/EncryptionManager.ts` in the tree predate the AAD
parameter, but every caller in `src/api` passes it and the spec requires it;
the AAD-threading cipher itself is the missing current revision.  A random
12-byte nonce and the ciphertext are minted fresh and the ledger records
(key, plaintext, aad). -/
def encryptData (key : KeyId) (pt : Json) (aad : Option String)
    (cs : CryptoState) : (String × String) × CryptoState :=
  let iv := mint cs.nextId
  let ct := mint (cs.nextId + 1)
  (⟨iv, ct⟩,
   { cs with
      nextId := cs.nextId + 2
      cts := ((iv, ct), ⟨key, pt, aad⟩) :: cs.cts })

/-- Modelled from the spec: `EncryptionManager.decryptData(key, iv, ct, aad?)`
(spec section 4.1; the in-tree revision at
`src/crypto/EncryptionManager.ts` lines 124-148 has the same shape minus the
`aad` argument).  Empty iv or ciphertext is a `ValidationError`; an
unauthentic (key, aad) pair for the recorded ciphertext is a `CryptoError`. -/
def decryptData (key : KeyId) (ivB64 ctB64 : String) (aad : Option String)
    (cs : CryptoState) : Except SlsErr Json :=
  if ivB64 = "" ∨ ctB64 = "" then .error .validation
  else
    match lookupCt cs (ivB64, ctB64) with
    | some r => if r.key = key ∧ r.aad = aad then .ok r.pt else .error .crypto
    | none => .error .crypto

/-- Modelled from the spec: `EncryptionManager.wrapDek(dek, kek, aad?)` (spec
section 4.1).  Mints a fresh wrap nonce and wrapped-key blob and records
(kek, dek, aad) in the ledger. -/
def wrapDek (dek kek : KeyId) (aad : Option String) (cs : CryptoState) :
    (String × String) × CryptoState :=
  let ivWrap := mint cs.nextId
  let wrapped := mint (cs.nextId + 1)
  (⟨ivWrap, wrapped⟩,
   { cs with
      nextId := cs.nextId + 2
      wraps := ((ivWrap, wrapped), ⟨kek, dek, aad⟩) :: cs.wraps })

/-- Modelled from the spec: `EncryptionManager.unwrapDek(iv, wrapped, kek,
forWrapping, aad?)` (spec section 4.1).  Succeeds with the recorded DEK
exactly when the supplied KEK and AAD match the wrap record; the
`forWrapping` extractability flag does not change the symbolic identity. -/
def unwrapDek (ivWrapB64 wrappedB64 : String) (kek : KeyId)
    (forWrapping : Bool) (aad : Option String) (cs : CryptoState) :
    Except SlsErr KeyId :=
  if ivWrapB64 = "" ∨ wrappedB64 = "" then .error .validation
  else
    match lookupWrap cs (ivWrapB64, wrappedB64) with
    | some r => if r.kek = kek ∧ r.aad = aad then .ok r.dek else .error .crypto
    | none => .error .crypto

/-- `EncryptionManager.generateSaltB64` (model): base64 of 16 random bytes,
i.e. a freshly minted nonempty string. -/
def generateSaltB64 (cs : CryptoState) : String × CryptoState :=
  (mint cs.nextId, { cs with nextId := cs.nextId + 1 })

/-- `src/utils/base64.ts` `base64ToBytes` (model): the real function rejects
empty input with `ValidationError` and otherwise decodes; decoding details are
glue (out-of-scope per the spec), so the model decodes a nonempty string to
its codepoints.  No claim depends on rejecting malformed base64. -/
def base64ToBytes? (s : String) : Option (List Nat) :=
  if s = "" then none else some (s.data.map Char.toNat)

/-! ## Constants (`src/constants.ts`) -/

def SALT_LEN : Nat := 16

def ARGON2_ITERATIONS : Nat := 20

def MIGRATION_TARGET_VERSION : Nat := 3

def SUPPORTED_VERSIONS : List Nat := [2, 3]

/-! ## The persisted bundle (`src/types.ts`)

`v` distinguishes the V2 and V3 layouts; `mPw` and `ctx` are the optional
fields of the header.  Field values are the base64 strings of the JSON
document.  `rounds` is a natural number: the source validators reject
non-numeric, non-integer and sub-1 values, and no claim's truth depends on a
fractional or negative round count (see `isValidConfig`). -/

structure Header where
  v : Nat
  salt : String
  rounds : Nat
  iv : String
  wrappedKey : String
  mPw : Option Bool := none
  ctx : Option String := none
  deriving DecidableEq, Repr

structure DataSection where
  iv : String
  ciphertext : String
  deriving DecidableEq, Repr

structure PersistedConfig where
  header : Header
  data : DataSection
  deriving DecidableEq, Repr

/-! ## VersionManager (`src/api/sls/VersionManager.ts`) -/

def isV3 (config : PersistedConfig) : Bool :=
  config.header.v == 3

def isV2 (config : PersistedConfig) : Bool :=
  config.header.v == 2

/-- `VersionManager.buildWrapAad(ctx, version)`:
the UTF-8 string `sls|wrap|v<version>|<root>` where `root` is the storage key
for ctx `"store"` and the literal `"export"` otherwise. -/
def buildWrapAad (storageKey : String) (ctx : String) (version : Nat) :
    String :=
  let root := if ctx = "store" then storageKey else "export"
  "sls|wrap|v" ++ toString version ++ "|" ++ root

/-- `VersionManager.buildDataAad(ctx, version, ivWrap, wrappedKey)`:
the UTF-8 string `sls|data|v<version>|<root>|<ivWrap>|<wrappedKey>`. -/
def buildDataAad (storageKey : String) (ctx : String) (version : Nat)
    (ivWrap wrappedKey : String) : String :=
  let root := if ctx = "store" then storageKey else "export"
  "sls|data|v" ++ toString version ++ "|" ++ root ++ "|" ++ ivWrap ++ "|" ++
    wrappedKey

/-- `VersionManager.getAadFor(type, config)`: V3 bundles get the AAD built
from `ctx ?? "store"` plus, for data, the header wrap fields; V2 gets none. -/
def getAadFor (storageKey : String) (type : Bool) (config : PersistedConfig) :
    Option String :=
  if isV3 config then
    let ctx := config.header.ctx.getD "store"
    if type then
      some (buildWrapAad storageKey ctx config.header.v)
    else
      some (buildDataAad storageKey ctx config.header.v config.header.iv
        config.header.wrappedKey)
  else none

/-- `VersionManager.isValidConfig(config)`: structural and semantic check of
a persisted bundle.  Mirrors the source line by line; the `h.ctx` truthiness
test means an empty-string ctx is not compared against `"store"`. -/
def isValidConfig (config : Option PersistedConfig) : Bool :=
  match config with
  | none => false
  | some c =>
    let h := c.header
    let d := c.data
    if ¬ (SUPPORTED_VERSIONS.contains h.v) then false
    else if h.rounds < 1 then false
    else if h.rounds == 1 && h.salt != "" then false
    else if h.rounds != 1 && h.salt == "" then false
    else if h.v == 3 &&
        (match h.ctx with
         | some ctx => ctx != "" && ctx != "store"
         | none => false) then false
    else if (base64ToBytes? h.iv).isNone then false
    else if (base64ToBytes? h.wrappedKey).isNone then false
    else if d.iv != "" && (base64ToBytes? d.iv).isNone then false
    else if d.ciphertext != "" && (base64ToBytes? d.ciphertext).isNone then
      false
    else true

/-! ## KeyDerivation (`src/crypto/KeyDerivation.ts`) -/

def MAX_ITERATIONS : Nat := 64

/-- `deriveKekFromPassword(password, salt, iterations)`: the validation
prologue mirrored from the source (lines 20-29), then the Argon2id call,
modelled as the symbolic key determined by its inputs.  Note the source
accepts any salt of byte length at least `SALT_LEN` (the check is
`salt.byteLength < SLS_CONSTANTS.SALT_LEN`). -/
def deriveKekFromPassword (password : String) (salt : List Nat)
    (iterations : Nat) : Except SlsErr KeyId :=
  if password.length = 0 then .error .validation
  else if salt.length < SALT_LEN then .error .validation
  else if iterations < 1 ∨ iterations > MAX_ITERATIONS then .error .validation
  else .ok (KeyId.derived password salt iterations)

/-! ## Portability (`src/api/sls/Portability.ts`, `unnamed/part_006`) -/

/-- The guard constant of `Portability.parseAndClassify`:
`const MAX_BUNDLE_CHARS = 15 * 1024 * 1024; // 2 MiB` — the declared intent
(comment and spec) is 2 MiB but the value is 15 MiB. -/
def MAX_BUNDLE_CHARS : Nat := 15 * 1024 * 1024

def TWO_MIB : Nat := 2 * 1024 * 1024

/-- `Portability.parseAndClassify(json, supported)`.  `JSON.parse` is
external glue, so it is a parameter: `parse s` returns the bundle a real
`JSON.parse` would yield for `s` (or `none` when `s` is not a bundle.)
The size guard runs before `parse` is ever consulted. -/
def parseAndClassify (parse : String → Option PersistedConfig)
    (json : String) (supported : List Nat) :
    Except SlsErr (PersistedConfig × Bool) :=
  if json.length > MAX_BUNDLE_CHARS then
    .error (.importErr "Export payload too large")
  else
    match parse json with
    | none => .error (.importErr "Invalid export structure")
    | some bundle =>
      if ¬ (supported.contains bundle.header.v) then
        .error (.importErr "Unsupported export version")
      else
        let isMasterProtected :=
          bundle.header.mPw == some true ||
            (decide (1 < bundle.header.rounds) &&
              bundle.header.mPw != some false)
        .ok (bundle, isMasterProtected)

/-- `SecureLocalStorage.validateBundle(bundle)` (the state-machine facade,
`unnamed/part_005` lines 254-290): semantic checks on an import bundle,
raising `ImportError` with a message per failed rule. -/
def validateBundle (bundle : PersistedConfig) : Except SlsErr Unit :=
  let h := bundle.header
  let d := bundle.data
  if h.rounds < 1 then .error (.importErr "Invalid header.rounds")
  else if h.rounds == 1 && h.salt != "" then
    .error (.importErr "Device-mode bundles must have empty salt")
  else if h.rounds != 1 && h.salt == "" then
    .error (.importErr "Password-protected bundles must include non-empty salt")
  else if (match h.ctx with
           | some ctx => ctx != "store" && ctx != "export"
           | none => false) then
    .error (.importErr "Invalid header.ctx")
  else if h.iv == "" then .error (.importErr "Invalid header.iv")
  else if h.wrappedKey == "" then
    .error (.importErr "Invalid header.wrappedKey")
  else if (base64ToBytes? h.iv).isNone then
    .error (.importErr "Invalid base64 data")
  else if (base64ToBytes? h.wrappedKey).isNone then
    .error (.importErr "Invalid base64 data")
  else if d.iv != "" && (base64ToBytes? d.iv).isNone then
    .error (.importErr "Invalid base64 data")
  else if d.ciphertext != "" && (base64ToBytes? d.ciphertext).isNone then
    .error (.importErr "Invalid base64 data")
  else .ok ()

/-! ## SessionKeyCache (`src/crypto/SessionKeyCache.ts`) -/

structure SessionCache where
  key : Option KeyId
  saltB64 : Option String
  rounds : Option Nat
  deriving DecidableEq, Repr

def SessionCache.empty : SessionCache := ⟨none, none, none⟩

/-- `SessionKeyCache.set(key, saltB64, rounds)`. -/
def SessionCache.setc (k : KeyId) (s : String) (r : Nat) : SessionCache :=
  ⟨some k, some s, some r⟩

/-- `SessionKeyCache.match(saltB64, rounds)`: the cached KEK iff both salt
and rounds match exactly. -/
def SessionCache.matchc (c : SessionCache) (s : String) (r : Nat) :
    Option KeyId :=
  match c.key with
  | none => none
  | some k => if c.saltB64 = some s ∧ c.rounds = some r then some k else none

/-! ## DeviceKeyProvider (`src/crypto/DeviceKeyProvider.ts`)

The origin-bound key database is modelled as nested association lists:
database name to store name to record id to key.  `memoryKeys` is the
in-process cache keyed by the serialized namespace. -/

structure IdbConfig where
  dbName : String
  storeName : String
  keyId : String
  deriving DecidableEq, Repr

/-- `memKeyId(cfg)`: `dbName::storeName::keyId`. -/
def memKeyId (cfg : IdbConfig) : String :=
  cfg.dbName ++ "::" ++ cfg.storeName ++ "::" ++ cfg.keyId

def alGet {α : Type} : List (String × α) → String → Option α
  | [], _ => none
  | (k0, v0) :: rest, k => if k0 = k then some v0 else alGet rest k

def alPut {α : Type} (l : List (String × α)) (k : String) (v : α) :
    List (String × α) :=
  match l with
  | [] => [(k, v)]
  | (k0, v0) :: rest =>
    if k0 = k then (k, v) :: rest else (k0, v0) :: alPut rest k v

def alDel {α : Type} (l : List (String × α)) (k : String) :
    List (String × α) :=
  l.filter (fun p => p.1 ≠ k)

/-- Records of one object store: record id to stored key. -/
def StoreRecs : Type := List (String × KeyId)

/-- The key database: database name to store name to records. -/
def Idb : Type := List (String × List (String × StoreRecs))

def idbGet (idb : Idb) (cfg : IdbConfig) : Option KeyId :=
  match alGet idb cfg.dbName with
  | none => none
  | some stores =>
    match alGet stores cfg.storeName with
    | none => none
    | some recs => alGet recs cfg.keyId

/-- `put({id: keyId, key})` into the (created if missing) store. -/
def idbPut (idb : Idb) (cfg : IdbConfig) (k : KeyId) : Idb :=
  let stores := (alGet idb cfg.dbName).getD []
  let recs := (alGet stores cfg.storeName).getD []
  alPut idb cfg.dbName (alPut stores cfg.storeName (alPut recs cfg.keyId k))

/-! ## The facade state

One structure carries everything a `SecureLocalStorage` instance mutates:
the in-RAM config and DEK, the session cache, the persisted KV slot
(`StorageService`, parsed), the provider state and the cipher ledger. -/

structure SLSState where
  config : Option PersistedConfig
  dek : Option KeyId
  session : SessionCache
  stored : Option PersistedConfig
  mem : List (String × KeyId)
  idb : Idb
  cs : CryptoState

/-- Instance construction parameters: `storageKey` and the device-key
namespace. -/
structure Env where
  storageKey : String
  idbCfg : IdbConfig

/-- `DeviceKeyProvider.getKey(cfg)`: in-process cache first, then the key
database, else generate (and persist and cache) a fresh KEK. -/
def getDeviceKey (cfg : IdbConfig) (st : SLSState) : KeyId × SLSState :=
  match alGet st.mem (memKeyId cfg) with
  | some k => (k, st)
  | none =>
    match idbGet st.idb cfg with
    | some k => (k, { st with mem := alPut st.mem (memKeyId cfg) k })
    | none =>
      let (k, cs) := genKey st.cs
      (k, { st with
              cs := cs
              mem := alPut st.mem (memKeyId cfg) k
              idb := idbPut st.idb cfg k })

/-- `DeviceKeyProvider.rotateKey(cfg)`: always a fresh KEK, persisted and
cached. -/
def rotateDeviceKey (cfg : IdbConfig) (st : SLSState) : KeyId × SLSState :=
  let (k, cs) := genKey st.cs
  (k, { st with
          cs := cs
          mem := alPut st.mem (memKeyId cfg) k
          idb := idbPut st.idb cfg k })

/-- `DeviceKeyProvider.deletePersistent(cfg)` (source lines 139-154): clears
the in-process cache entry, then — by the documented back-compat behavior —
deletes the ENTIRE database `cfg.dbName` via `indexedDB.deleteDatabase`,
not just the record `cfg.keyId`. -/
def deletePersistentProvider (cfg : IdbConfig) (st : SLSState) : SLSState :=
  { st with
      mem := alDel st.mem (memKeyId cfg)
      idb := alDel st.idb cfg.dbName }

/-- `SecureLocalStorage.persist()`: `this.store.set(this.config!)`.  The KV
write and readback are external; quota and integrity failures are outside
the claims, so the model write always succeeds. -/
def persist (st : SLSState) : SLSState :=
  { st with stored := st.config }

/-- Fresh-salt generation used by the mode transitions.  The real
`generateSaltB64` base64-encodes 16 random bytes; the model mints a string
of length `nextId + SALT_LEN`, so its byte decoding always has length at
least 16 and distinct counters give distinct salts. -/
def saltMint (n : Nat) : String :=
  String.mk (List.replicate (n + SALT_LEN) 'A')

def genSalt (cs : CryptoState) : String × CryptoState :=
  (saltMint cs.nextId, { cs with nextId := cs.nextId + 1 })

theorem saltMint_length (n : Nat) : (saltMint n).length = n + SALT_LEN := by
  simp [saltMint, String.length]

theorem saltMint_ne_empty (n : Nat) : saltMint n ≠ "" := by
  intro h
  have := congrArg String.length h
  simp [saltMint_length, SALT_LEN] at this

theorem saltMint_injective : Function.Injective saltMint := by
  intro a b h
  have := congrArg String.length h
  simpa [saltMint_length] using this

/-- Model of the external JavaScript `String.prototype.trim` (glue): strip
leading and trailing whitespace.  Defined executably so concrete witnesses
can evaluate it (core `String.trim` does not reduce in the kernel). -/
def isJsWs (c : Char) : Bool :=
  c = ' ' ∨ c = '\t' ∨ c = '\n' ∨ c = '\r' ∨ c = '\x0b' ∨ c = '\x0c'

def jsTrim (s : String) : String :=
  String.mk (((s.data.dropWhile isJsWs).reverse.dropWhile isJsWs).reverse)

/-! ## Shared facade helpers (`unnamed/part_005`) -/

/-- `decryptCurrentData()`: empty data section decrypts to `{}`; otherwise
AES-GCM decrypt of the data section under the current data AAD. -/
def decryptCurrentData (env : Env) (c : PersistedConfig) (dek : KeyId)
    (cs : CryptoState) : Except SlsErr Json :=
  if c.data.iv = "" ∨ c.data.ciphertext = "" then .ok (Json.obj [])
  else
    decryptData dek c.data.iv c.data.ciphertext
      (getAadFor env.storageKey false c) cs

/-- `sessionKekOrThrow()`: the cached KEK matched against the current
header's (salt, rounds), else `LockedError`. -/
def sessionKekOrThrow (c : PersistedConfig) (st : SLSState) :
    Except SlsErr KeyId :=
  match SessionCache.matchc st.session c.header.salt c.header.rounds with
  | some kek => .ok kek
  | none => .error .locked

/-- `ensureDekLoaded()`: a no-op when a DEK is in RAM; otherwise unwrap the
header with the session KEK (master mode) or the device KEK. -/
def ensureDekLoaded (env : Env) (isMaster : Bool) (c : PersistedConfig)
    (st : SLSState) : Except SlsErr (KeyId × SLSState) :=
  match st.dek with
  | some d => .ok (d, st)
  | none =>
    if isMaster then
      match sessionKekOrThrow c st with
      | .error e => .error e
      | .ok kek =>
        match unwrapDek c.header.iv c.header.wrappedKey kek false
            (getAadFor env.storageKey true c) st.cs with
        | .error e => .error e
        | .ok d => .ok (d, { st with dek := some d })
    else
      let (deviceKek, st1) := getDeviceKey env.idbCfg st
      match unwrapDek c.header.iv c.header.wrappedKey deviceKek false
          (getAadFor env.storageKey true c) st1.cs with
      | .error e => .error e
      | .ok d => .ok (d, { st1 with dek := some d })

/-! ## DeviceModeState (`src/api/states/DeviceModeState.ts`) -/

/-- `DeviceModeState.rotateKeys()` (lines 80-112): unwrap the DEK with the
device KEK, decrypt the payload, generate a fresh DEK, rotate the device
KEK, re-wrap and re-encrypt under the new header-bound store AADs, install
and persist the new V3 header with `salt=""`, `rounds=1`. -/
def rotateKeysDevice (env : Env) (st : SLSState) : Except SlsErr SLSState :=
  match st.config with
  | none => .error (.importErr "No configuration present")
  | some c =>
    let (deviceKek, st1) := getDeviceKey env.idbCfg st
    match unwrapDek c.header.iv c.header.wrappedKey deviceKek false
        (getAadFor env.storageKey true c) st1.cs with
    | .error e => .error e
    | .ok dek0 =>
      let st2 := { st1 with dek := some dek0 }
      match decryptCurrentData env c dek0 st2.cs with
      | .error e => .error e
      | .ok plain =>
        let (newDek, cs1) := genKey st2.cs
        let st3 := { st2 with cs := cs1 }
        let (newDeviceKek, st4) := rotateDeviceKey env.idbCfg st3
        let wrapAad :=
          buildWrapAad env.storageKey "store" MIGRATION_TARGET_VERSION
        let wr := wrapDek newDek newDeviceKek (some wrapAad) st4.cs
        let ivWrap := wr.1.1
        let wrappedKey := wr.1.2
        let dataAad := buildDataAad env.storageKey "store"
          MIGRATION_TARGET_VERSION ivWrap wrappedKey
        let er := encryptData newDek plain (some dataAad) wr.2
        let newCfg : PersistedConfig :=
          { header :=
              { v := MIGRATION_TARGET_VERSION, salt := "", rounds := 1
                iv := ivWrap, wrappedKey := wrappedKey
                mPw := none, ctx := some "store" }
            data := { iv := er.1.1, ciphertext := er.1.2 } }
        match unwrapDek ivWrap wrappedKey newDeviceKek false (some wrapAad)
            er.2 with
        | .error e => .error e
        | .ok dek1 =>
          .ok (persist
            { st4 with cs := er.2, config := some newCfg, dek := some dek1 })

/-- `DeviceModeState.getData()` (lines 114-134): load the DEK, return `{}`
for an empty data section, else decrypt under the data AAD and require a
plain object. -/
def getDataDevice (env : Env) (st : SLSState) :
    Except SlsErr (Json × SLSState) :=
  match st.config with
  | none => .error (.importErr "No configuration present")
  | some c =>
    match ensureDekLoaded env false c st with
    | .error e => .error e
    | .ok (dek0, st1) =>
      if c.data.iv = "" ∨ c.data.ciphertext = "" then .ok (Json.obj [], st1)
      else
        match decryptData dek0 c.data.iv c.data.ciphertext
            (getAadFor env.storageKey false c) st1.cs with
        | .error e => .error e
        | .ok obj =>
          match obj with
          | Json.obj kvs => .ok (Json.obj kvs, st1)
          | _ => .error .validation

/-- `DeviceModeState.setMasterPassword(pw)` (lines 23-62): unwrap the DEK
extractable with the device KEK, decrypt, derive a KEK from the password
with a fresh salt and the default rounds, re-wrap and re-encrypt under
header-bound store AADs, cache the session KEK, persist. -/
def setMasterPasswordDevice (env : Env) (pw : String) (st : SLSState) :
    Except SlsErr SLSState :=
  match st.config with
  | none => .error (.importErr "No configuration present")
  | some c =>
    if (jsTrim pw).length = 0 then .error .validation
    else
      let (deviceKek, st1) := getDeviceKey env.idbCfg st
      match unwrapDek c.header.iv c.header.wrappedKey deviceKek true
          (getAadFor env.storageKey true c) st1.cs with
      | .error e => .error e
      | .ok dek0 =>
        let st2 := { st1 with dek := some dek0 }
        match decryptCurrentData env c dek0 st2.cs with
        | .error e => .error e
        | .ok plain =>
          let sg := genSalt st2.cs
          let saltB64 := sg.1
          let rounds := ARGON2_ITERATIONS
          match base64ToBytes? saltB64 with
          | none => .error .validation
          | some saltBytes =>
            match deriveKekFromPassword pw saltBytes rounds with
            | .error e => .error e
            | .ok kek =>
              let wrapAad :=
                buildWrapAad env.storageKey "store" MIGRATION_TARGET_VERSION
              let wr := wrapDek dek0 kek (some wrapAad) sg.2
              let dataAad := buildDataAad env.storageKey "store"
                MIGRATION_TARGET_VERSION wr.1.1 wr.1.2
              let er := encryptData dek0 plain (some dataAad) wr.2
              let newCfg : PersistedConfig :=
                { header :=
                    { v := MIGRATION_TARGET_VERSION, salt := saltB64
                      rounds := rounds, iv := wr.1.1, wrappedKey := wr.1.2
                      mPw := none, ctx := some "store" }
                  data := { iv := er.1.1, ciphertext := er.1.2 } }
              match unwrapDek wr.1.1 wr.1.2 kek false (some wrapAad) er.2 with
              | .error e => .error e
              | .ok dek1 =>
                .ok (persist
                  { st2 with
                      cs := er.2
                      config := some newCfg
                      session := SessionCache.setc kek saltB64 rounds
                      dek := some dek1 })

/-! ## InitialState (`src/api/states/InitialState.ts`) -/

/-- `InitialState.createNewStore()` (lines 41-67): fresh DEK wrapped under
the device KEK with the store wrap AAD, `{}` encrypted under the
header-bound store data AAD, V3 header with `salt=""`, `rounds=1`. -/
def createNewStore (env : Env) (st : SLSState) : Except SlsErr SLSState :=
  let (dek, cs0) := genKey st.cs
  let st0 := { st with cs := cs0 }
  let (deviceKek, st1) := getDeviceKey env.idbCfg st0
  let wrapAad := buildWrapAad env.storageKey "store" MIGRATION_TARGET_VERSION
  let wr := wrapDek dek deviceKek (some wrapAad) st1.cs
  match unwrapDek wr.1.1 wr.1.2 deviceKek false (some wrapAad) wr.2 with
  | .error e => .error e
  | .ok unwrappedDek =>
    let dataAad := buildDataAad env.storageKey "store"
      MIGRATION_TARGET_VERSION wr.1.1 wr.1.2
    let er := encryptData unwrappedDek (Json.obj []) (some dataAad) wr.2
    let newCfg : PersistedConfig :=
      { header :=
          { v := MIGRATION_TARGET_VERSION, salt := "", rounds := 1
            iv := wr.1.1, wrappedKey := wr.1.2, mPw := none
            ctx := some "store" }
        data := { iv := er.1.1, ciphertext := er.1.2 } }
    .ok (persist
      { st1 with cs := er.2, config := some newCfg, dek := some unwrappedDek })

/-! ## MasterPasswordState (`src/api/states/MasterPasswordState.ts`) -/

/-- `MasterPasswordState.removeMasterPassword()` (lines 117-150): unwrap
extractable with the session KEK, decrypt, re-wrap under the device KEK and
re-encrypt under new store AADs, clear the session, persist a `salt=""`,
`rounds=1` header. -/
def removeMasterPasswordMaster (env : Env) (st : SLSState) :
    Except SlsErr SLSState :=
  match st.config with
  | none => .error (.importErr "No configuration present")
  | some c =>
    if st.dek.isNone then .error .locked
    else
      match sessionKekOrThrow c st with
      | .error e => .error e
      | .ok sessionKek =>
        match unwrapDek c.header.iv c.header.wrappedKey sessionKek true
            (getAadFor env.storageKey true c) st.cs with
        | .error e => .error e
        | .ok dek0 =>
          let st2 := { st with dek := some dek0 }
          match decryptCurrentData env c dek0 st2.cs with
          | .error e => .error e
          | .ok plain =>
            let (deviceKek, st3) := getDeviceKey env.idbCfg st2
            let wrapAad :=
              buildWrapAad env.storageKey "store" MIGRATION_TARGET_VERSION
            let wr := wrapDek dek0 deviceKek (some wrapAad) st3.cs
            let dataAad := buildDataAad env.storageKey "store"
              MIGRATION_TARGET_VERSION wr.1.1 wr.1.2
            let er := encryptData dek0 plain (some dataAad) wr.2
            let newCfg : PersistedConfig :=
              { header :=
                  { v := MIGRATION_TARGET_VERSION, salt := "", rounds := 1
                    iv := wr.1.1, wrappedKey := wr.1.2, mPw := none
                    ctx := some "store" }
                data := { iv := er.1.1, ciphertext := er.1.2 } }
            match unwrapDek wr.1.1 wr.1.2 deviceKek false (some wrapAad)
                er.2 with
            | .error e => .error e
            | .ok dek1 =>
              .ok (persist
                { st3 with
                    cs := er.2
                    config := some newCfg
                    session := SessionCache.empty
                    dek := some dek1 })

/-- `MasterPasswordState.rotateMasterPassword(old, new)` (lines 151-217):
validate the new password, verify the old one by unwrapping the header,
then re-wrap the DEK under a KEK derived from the new password with a fresh
salt and default rounds, re-encrypt, update the session, persist. -/
def rotateMasterPasswordMaster (env : Env) (oldPw newPw : String)
    (st : SLSState) : Except SlsErr SLSState :=
  match st.config with
  | none => .error (.importErr "No configuration present")
  | some c =>
    if (jsTrim newPw).length = 0 then .error .validation
    else
      let verify : Except SlsErr Unit :=
        match base64ToBytes? c.header.salt with
        | none => .error .validation
        | some saltBytes =>
          match deriveKekFromPassword oldPw saltBytes c.header.rounds with
          | .error e => .error e
          | .ok verifyKek =>
            match unwrapDek c.header.iv c.header.wrappedKey verifyKek false
                (getAadFor env.storageKey true c) st.cs with
            | .error e => .error e
            | .ok _ => .ok ()
      match verify with
      | .error _ => .error .validation
      | .ok _ =>
        match sessionKekOrThrow c st with
        | .error e => .error e
        | .ok sessionKek =>
          match unwrapDek c.header.iv c.header.wrappedKey sessionKek true
              (getAadFor env.storageKey true c) st.cs with
          | .error e => .error e
          | .ok dek0 =>
            let st2 := { st with dek := some dek0 }
            match decryptCurrentData env c dek0 st2.cs with
            | .error e => .error e
            | .ok plain =>
              let sg := genSalt st2.cs
              let saltB64 := sg.1
              let newRounds := ARGON2_ITERATIONS
              match base64ToBytes? saltB64 with
              | none => .error .validation
              | some saltBytes =>
                match deriveKekFromPassword newPw saltBytes newRounds with
                | .error e => .error e
                | .ok newKek =>
                  let wrapAad := buildWrapAad env.storageKey "store"
                    MIGRATION_TARGET_VERSION
                  let wr := wrapDek dek0 newKek (some wrapAad) sg.2
                  let dataAad := buildDataAad env.storageKey "store"
                    MIGRATION_TARGET_VERSION wr.1.1 wr.1.2
                  let er := encryptData dek0 plain (some dataAad) wr.2
                  let newCfg : PersistedConfig :=
                    { header :=
                        { v := MIGRATION_TARGET_VERSION, salt := saltB64
                          rounds := newRounds, iv := wr.1.1
                          wrappedKey := wr.1.2, mPw := none
                          ctx := some "store" }
                      data := { iv := er.1.1, ciphertext := er.1.2 } }
                  match unwrapDek wr.1.1 wr.1.2 newKek false (some wrapAad)
                      er.2 with
                  | .error e => .error e
                  | .ok dek1 =>
                    .ok (persist
                      { st2 with
                          cs := er.2
                          config := some newCfg
                          session :=
                            SessionCache.setc newKek saltB64 newRounds
                          dek := some dek1 })

/-! ## V2 to V3 migration (`unnamed/part_005`, `migrateV2ToV3`) -/

/-- `migrateV2ToV3(mode, v2, kek)` (lines 300-339): unwrap and decrypt the
V2 bundle without AAD, re-wrap and re-encrypt under the V3 store AADs;
device mode blanks salt and sets `rounds=1`, master mode keeps the V2 salt
and rounds.  `device` selects the mode. -/
def migrateV2ToV3 (env : Env) (device : Bool) (v2 : PersistedConfig)
    (kek : KeyId) (st : SLSState) : Except SlsErr SLSState :=
  match unwrapDek v2.header.iv v2.header.wrappedKey kek true none st.cs with
  | .error e => .error e
  | .ok dek0 =>
    let plainRes : Except SlsErr Json :=
      if v2.data.iv = "" ∨ v2.data.ciphertext = "" then .ok (Json.obj [])
      else decryptData dek0 v2.data.iv v2.data.ciphertext none st.cs
    match plainRes with
    | .error e => .error e
    | .ok plain =>
      let wrapAad :=
        buildWrapAad env.storageKey "store" MIGRATION_TARGET_VERSION
      let wr := wrapDek dek0 kek (some wrapAad) st.cs
      let dataAad := buildDataAad env.storageKey "store"
        MIGRATION_TARGET_VERSION wr.1.1 wr.1.2
      let er := encryptData dek0 plain (some dataAad) wr.2
      let newCfg : PersistedConfig :=
        { header :=
            { v := MIGRATION_TARGET_VERSION
              salt := if device then "" else v2.header.salt
              rounds := if device then 1 else v2.header.rounds
              iv := wr.1.1, wrappedKey := wr.1.2, mPw := none
              ctx := some "store" }
          data := { iv := er.1.1, ciphertext := er.1.2 } }
      match unwrapDek wr.1.1 wr.1.2 kek false (some wrapAad) er.2 with
      | .error e => .error e
      | .ok dek1 =>
        .ok (persist
          { st with
              cs := er.2
              config := some newCfg
              dek := some dek1
              session := if device then SessionCache.empty else st.session })

/-! ## LockedState (`unnamed/part_005`, lines 346-428)

The six operations that are illegal while locked throw `LockedError`
immediately; the state is returned unchanged alongside the error. -/

def lockedSetMasterPassword (pw : String) (st : SLSState) :
    Except SlsErr Unit × SLSState :=
  let _ := pw
  (.error .locked, st)

def lockedRemoveMasterPassword (st : SLSState) :
    Except SlsErr Unit × SLSState :=
  (.error .locked, st)

def lockedRotateKeys (st : SLSState) : Except SlsErr Unit × SLSState :=
  (.error .locked, st)

def lockedGetData (st : SLSState) : Except SlsErr Json × SLSState :=
  (.error .locked, st)

def lockedSetData (value : Json) (st : SLSState) :
    Except SlsErr Unit × SLSState :=
  let _ := value
  (.error .locked, st)

def lockedExportData (customExportPassword : Option String) (st : SLSState) :
    Except SlsErr PersistedConfig × SLSState :=
  let _ := customExportPassword
  (.error .locked, st)

/-- `LockedState.unlock(masterPassword)` (lines 355-377): derive a KEK from
the password and the header's salt and rounds, cache it, unwrap the header;
on unwrap failure clear the session cache and raise `ValidationError`.  On
success a V2 bundle is migrated.  The resulting state is returned together
with the outcome so the failure frame is observable. -/
def unlockLocked (env : Env) (pw : String) (st : SLSState) :
    Except SlsErr Unit × SLSState :=
  match st.config with
  | none => (.ok (), st)
  | some c =>
    if (jsTrim pw).length = 0 then (.error .validation, st)
    else
      match base64ToBytes? c.header.salt with
      | none => (.error .validation, st)
      | some saltBytes =>
        match deriveKekFromPassword pw saltBytes c.header.rounds with
        | .error e => (.error e, st)
        | .ok kek =>
          let st1 := { st with
            session := SessionCache.setc kek c.header.salt c.header.rounds }
          match unwrapDek c.header.iv c.header.wrappedKey kek false
              (getAadFor env.storageKey true c) st1.cs with
          | .error _ =>
            (.error .validation, { st1 with session := SessionCache.empty })
          | .ok dek0 =>
            let st2 := { st1 with dek := some dek0 }
            if isV2 c then
              match migrateV2ToV3 env false c kek st2 with
              | .error e => (.error e, st2)
              | .ok st3 => (.ok (), st3)
            else (.ok (), st2)

/-! ## exportData (`src/api/SecureLocalStorage.ts`, lines 958-1019)

The facade variant handles both modes; `isUsingMasterPassword()` there is
`(config?.header.rounds ?? 1) > 1`.  The serialized return value is
modelled as the bundle itself (`JSON.stringify` is glue). -/
def exportDataFacade (env : Env) (customExportPassword : Option String)
    (st : SLSState) : Except SlsErr (PersistedConfig × SLSState) :=
  match st.config with
  | none => .error (.importErr "No configuration present")
  | some c =>
    let isMaster := 1 < c.header.rounds
    match ensureDekLoaded env isMaster c st with
    | .error e => .error e
    | .ok (dek0, st1) =>
      match decryptCurrentData env c dek0 st1.cs with
      | .error e => .error e
      | .ok plain =>
        let activeKekRes : Except SlsErr (KeyId × SLSState) :=
          if isMaster then
            match sessionKekOrThrow c st1 with
            | .error e => .error e
            | .ok kek => .ok (kek, st1)
          else .ok (getDeviceKey env.idbCfg st1)
        match activeKekRes with
        | .error e => .error e
        | .ok (activeKek, st2) =>
          match unwrapDek c.header.iv c.header.wrappedKey activeKek true
              (getAadFor env.storageKey true c) st2.cs with
          | .error e => .error e
          | .ok dekX =>
            let st3 := { st2 with dek := some dekX }
            let pwFalsy :=
              customExportPassword = none ∨ customExportPassword = some ""
            let specRes : Except SlsErr
                ((String × Nat × KeyId × Bool) × SLSState) :=
              if pwFalsy ∧ isMaster then
                match sessionKekOrThrow c st3 with
                | .error e => .error e
                | .ok kek =>
                  .ok ((c.header.salt, c.header.rounds, kek, true), st3)
              else
                match customExportPassword with
                | none => .error .exportErr
                | some p =>
                  if (jsTrim p).length = 0 then .error .exportErr
                  else
                    let sg := genSalt st3.cs
                    let st4 := { st3 with cs := sg.2 }
                    match base64ToBytes? sg.1 with
                    | none => .error .validation
                    | some saltBytes =>
                      match deriveKekFromPassword p saltBytes
                          ARGON2_ITERATIONS with
                      | .error e => .error e
                      | .ok kek =>
                        .ok ((sg.1, ARGON2_ITERATIONS, kek, false), st4)
            match specRes with
            | .error e => .error e
            | .ok ((saltB64, rounds, kek, mPw), st5) =>
              let wrapAad :=
                buildWrapAad env.storageKey "export" MIGRATION_TARGET_VERSION
              let wr := wrapDek dekX kek (some wrapAad) st5.cs
              let dataAad := buildDataAad env.storageKey "export"
                MIGRATION_TARGET_VERSION wr.1.1 wr.1.2
              let er := encryptData dekX plain (some dataAad) wr.2
              let bundle : PersistedConfig :=
                { header :=
                    { v := MIGRATION_TARGET_VERSION, salt := saltB64
                      rounds := rounds, iv := wr.1.1, wrappedKey := wr.1.2
                      mPw := some mPw, ctx := some "export" }
                  data := { iv := er.1.1, ciphertext := er.1.2 } }
              .ok (bundle, { st5 with cs := er.2 })

/-! ## importData (`unnamed/part_005`, lines 112-213) -/

/-- The verification block of the master-protected import path (the first
try of the source): derive, unwrap, and decrypt-check the incoming bundle;
any failure is caught and surfaced as one `ImportError`. -/
def importVerifyMaster (env : Env) (password : String)
    (bundle : PersistedConfig) (wrapAad dataAad : Option String)
    (st : SLSState) : Except SlsErr Unit :=
  let _ := env
  match base64ToBytes? bundle.header.salt with
  | none => .error .validation
  | some saltBytes =>
    match deriveKekFromPassword password saltBytes bundle.header.rounds with
    | .error e => .error e
    | .ok kek =>
      match unwrapDek bundle.header.iv bundle.header.wrappedKey kek false
          wrapAad st.cs with
      | .error e => .error e
      | .ok dek =>
        if bundle.data.iv ≠ "" ∧ bundle.data.ciphertext ≠ "" then
          match decryptData dek bundle.data.iv bundle.data.ciphertext
              dataAad st.cs with
          | .error e => .error e
          | .ok _ => .ok ()
        else .ok ()

/-- `SecureLocalStorage.importData(serialized, password)` of the
state-machine facade: parse and classify, validate, require a password,
then either verify and adopt or re-wrap a master-protected bundle
(transition to Locked), or unwrap a custom-export bundle and re-wrap it
under the device KEK (transition to DeviceMode). -/
def importDataFacade (env : Env)
    (parse : String → Option PersistedConfig) (serialized : String)
    (password : Option String) (st : SLSState) :
    Except SlsErr (String × SLSState) :=
  match parseAndClassify parse serialized SUPPORTED_VERSIONS with
  | .error e => .error e
  | .ok (bundle, isMasterProtected) =>
    match validateBundle bundle with
    | .error e => .error e
    | .ok _ =>
      match password with
      | none =>
        .error (.importErr (if isMasterProtected then
          "Master password required to import" else
          "Export password required to import"))
      | some pw =>
        if pw.length = 0 then
          .error (.importErr (if isMasterProtected then
            "Master password required to import" else
            "Export password required to import"))
        else
          let ctx : Option String :=
            if isV3 bundle then some (bundle.header.ctx.getD "store")
            else none
          let wrapAad : Option String :=
            match ctx with
            | some cx => some (buildWrapAad env.storageKey cx bundle.header.v)
            | none => none
          let dataAad : Option String :=
            match ctx with
            | some cx => some (buildDataAad env.storageKey cx bundle.header.v
                bundle.header.iv bundle.header.wrappedKey)
            | none => none
          if isMasterProtected then
            match importVerifyMaster env pw bundle wrapAad dataAad st with
            | .error _ =>
              .error (.importErr
                "Invalid master password or corrupted export data")
            | .ok _ =>
              if ¬ (isV3 bundle ∧ bundle.header.ctx = some "store") then
                match base64ToBytes? bundle.header.salt with
                | none => .error .validation
                | some saltBytes =>
                  match deriveKekFromPassword pw saltBytes
                      bundle.header.rounds with
                  | .error e => .error e
                  | .ok kek =>
                    match unwrapDek bundle.header.iv bundle.header.wrappedKey
                        kek true wrapAad st.cs with
                    | .error e => .error e
                    | .ok dek =>
                      let wrapAadStore := buildWrapAad env.storageKey "store"
                        MIGRATION_TARGET_VERSION
                      let wr := wrapDek dek kek (some wrapAadStore) st.cs
                      let dataAadStore := buildDataAad env.storageKey "store"
                        MIGRATION_TARGET_VERSION wr.1.1 wr.1.2
                      let plainRes : Except SlsErr Json :=
                        if bundle.data.iv ≠ "" ∧ bundle.data.ciphertext ≠ ""
                        then
                          decryptData dek bundle.data.iv
                            bundle.data.ciphertext dataAad st.cs
                        else .ok (Json.obj [])
                      match plainRes with
                      | .error e => .error e
                      | .ok plain =>
                        let er := encryptData dek plain (some dataAadStore)
                          wr.2
                        let newCfg : PersistedConfig :=
                          { header :=
                              { v := MIGRATION_TARGET_VERSION
                                salt := bundle.header.salt
                                rounds := bundle.header.rounds
                                iv := wr.1.1, wrappedKey := wr.1.2
                                mPw := some true, ctx := some "store" }
                            data := { iv := er.1.1, ciphertext := er.1.2 } }
                        .ok ("masterPassword", persist
                          { st with
                              cs := er.2
                              config := some newCfg
                              dek := none
                              session := SessionCache.empty })
              else
                .ok ("masterPassword", persist
                  { st with
                      config := some bundle
                      dek := none
                      session := SessionCache.empty })
          else
            let customRes : Except SlsErr SLSState :=
              match base64ToBytes? bundle.header.salt with
              | none => .error .validation
              | some saltBytes =>
                match deriveKekFromPassword pw saltBytes
                    bundle.header.rounds with
                | .error e => .error e
                | .ok exportKek =>
                  match unwrapDek bundle.header.iv bundle.header.wrappedKey
                      exportKek true wrapAad st.cs with
                  | .error e => .error e
                  | .ok extractableDek =>
                    let (deviceKek, st1) := getDeviceKey env.idbCfg st
                    let wrapAadStore := buildWrapAad env.storageKey "store"
                      MIGRATION_TARGET_VERSION
                    let wr := wrapDek extractableDek deviceKek
                      (some wrapAadStore) st1.cs
                    let dataAadStore := buildDataAad env.storageKey "store"
                      MIGRATION_TARGET_VERSION wr.1.1 wr.1.2
                    let plainRes : Except SlsErr Json :=
                      if bundle.data.iv ≠ "" ∧ bundle.data.ciphertext ≠ ""
                      then
                        decryptData extractableDek bundle.data.iv
                          bundle.data.ciphertext dataAad st1.cs
                      else .ok (Json.obj [])
                    match plainRes with
                    | .error e => .error e
                    | .ok plain =>
                      let er := encryptData extractableDek plain
                        (some dataAadStore) wr.2
                      let newCfg : PersistedConfig :=
                        { header :=
                            { v := MIGRATION_TARGET_VERSION, salt := ""
                              rounds := 1, iv := wr.1.1
                              wrappedKey := wr.1.2, mPw := none
                              ctx := some "store" }
                          data := { iv := er.1.1, ciphertext := er.1.2 } }
                      match unwrapDek wr.1.1 wr.1.2 deviceKek false
                          (some wrapAadStore) er.2 with
                      | .error e => .error e
                      | .ok dek1 =>
                        .ok (persist
                          { st1 with
                              cs := er.2
                              config := some newCfg
                              dek := some dek1
                              session := SessionCache.empty })
            match customRes with
            | .error _ =>
              .error (.importErr
                "Invalid export password or corrupted export data")
            | .ok st2 => .ok ("customExportPassword", st2)

/-! ## JavaScript values and `toPlainJson` (`src/utils/json.ts`)

`setData` receives arbitrary JavaScript values.  They are modelled as trees
in which every object and array node carries an identity tag (a `Nat`):
two nodes with the same tag stand for the same JavaScript reference, which
is what the `WeakSet` in `toPlainJson` observes.  Cyclic structures are the
limit case of a repeated tag along a path; any repeated tag, shared or
cyclic, trips the same `seen.has(o)` check.  The `Bool` on object nodes
records whether the prototype is `Object.prototype` (`false` for class
instances and other exotic objects; objects with a custom `toJSON` are
outside the model). -/

inductive JsPrim where
  | null : JsPrim
  | undef : JsPrim
  | bool : Bool → JsPrim
  | num : Int → JsPrim
  | str : String → JsPrim
  | bigint : Int → JsPrim
  | fn : JsPrim
  | sym : JsPrim
  deriving DecidableEq, Repr

inductive JsVal where
  | prim : JsPrim → JsVal
  | arr : Nat → List JsVal → JsVal
  | obj : Nat → Bool → List (String × JsVal) → JsVal

/-- JavaScript truthiness: `!value` holds for `null`, `undefined`, `false`,
`0`, `NaN` and the empty string. -/
def isFalsy : JsVal → Bool
  | .prim .null => true
  | .prim .undef => true
  | .prim (.bool b) => !b
  | .prim (.num n) => n == 0
  | .prim (.str s) => s == ""
  | _ => false

/-- `typeof value` (note `typeof null === "object"`). -/
def typeofStr : JsVal → String
  | .prim .null => "object"
  | .prim .undef => "undefined"
  | .prim (.bool _) => "boolean"
  | .prim (.num _) => "number"
  | .prim (.str _) => "string"
  | .prim (.bigint _) => "bigint"
  | .prim .fn => "function"
  | .prim .sym => "symbol"
  | .arr _ _ => "object"
  | .obj _ _ _ => "object"

def isArray : JsVal → Bool
  | .arr _ _ => true
  | _ => false

/-- The root guard of `setData` (`DeviceModeState.setData`, lines 140-142):
`!value || typeof value !== "object" || Array.isArray(value)`. -/
def setDataRootRejects (v : JsVal) : Bool :=
  isFalsy v || typeofStr v != "object" || isArray v

mutual

/-- One step of `JSON.stringify(value, replacer)` inside `toPlainJson`:
the replacer throws `ValidationError` on functions and symbols and on an
object reference already in the `WeakSet`; `JSON.stringify` itself throws
on BigInt (surfaced as `ValidationError` by the catch); `undefined` values
serialize to nothing.  The accumulated `seen` list is threaded through in
visit order. -/
def walkVal (seen : List Nat) : JsVal →
    Except SlsErr (Option Json × List Nat)
  | .prim .null => .ok (some Json.null, seen)
  | .prim .undef => .ok (none, seen)
  | .prim (.bool b) => .ok (some (Json.bool b), seen)
  | .prim (.num n) => .ok (some (Json.num n), seen)
  | .prim (.str s) => .ok (some (Json.str s), seen)
  | .prim (.bigint _) => .error .validation
  | .prim .fn => .error .validation
  | .prim .sym => .error .validation
  | .arr tag elts =>
    if tag ∈ seen then .error .validation
    else
      match walkList (tag :: seen) elts with
      | .error e => .error e
      | .ok (js, seen2) => .ok (some (Json.arr js), seen2)
  | .obj tag _ fields =>
    if tag ∈ seen then .error .validation
    else
      match walkFields (tag :: seen) fields with
      | .error e => .error e
      | .ok (kvs, seen2) => .ok (some (Json.obj kvs), seen2)

/-- Array elements; an element serializing to nothing becomes `null`. -/
def walkList (seen : List Nat) : List JsVal →
    Except SlsErr (List Json × List Nat)
  | [] => .ok ([], seen)
  | v :: rest =>
    match walkVal seen v with
    | .error e => .error e
    | .ok (j, seen1) =>
      match walkList seen1 rest with
      | .error e => .error e
      | .ok (js, seen2) => .ok ((j.getD Json.null) :: js, seen2)

/-- Object fields; a value serializing to nothing drops the property. -/
def walkFields (seen : List Nat) : List (String × JsVal) →
    Except SlsErr (List (String × Json) × List Nat)
  | [] => .ok ([], seen)
  | (k, v) :: rest =>
    match walkVal seen v with
    | .error e => .error e
    | .ok (j, seen1) =>
      match walkFields seen1 rest with
      | .error e => .error e
      | .ok (kvs, seen2) =>
        .ok ((match j with
              | some jv => (k, jv) :: kvs
              | none => kvs), seen2)

end

/-- `toPlainJson(value)`: the guarded stringify-then-parse round trip. -/
def toPlainJson (v : JsVal) : Except SlsErr Json :=
  match walkVal [] v with
  | .error e => .error e
  | .ok (some j, _) => .ok j
  | .ok (none, _) => .error .validation

/-- `DeviceModeState.setData(value)` (lines 136-149): load the DEK, apply
the root guard, sanitize via `toPlainJson`, encrypt under the current data
AAD and persist the updated data section. -/
def setDataDevice (env : Env) (v : JsVal) (st : SLSState) :
    Except SlsErr SLSState :=
  match st.config with
  | none => .error (.importErr "No configuration present")
  | some c =>
    match ensureDekLoaded env false c st with
    | .error e => .error e
    | .ok (dek0, st1) =>
      if setDataRootRejects v then .error .validation
      else
        match toPlainJson v with
        | .error e => .error e
        | .ok plain =>
          let er := encryptData dek0 plain
            (getAadFor env.storageKey false c) st1.cs
          let newCfg : PersistedConfig :=
            { header := c.header
              data := { iv := er.1.1, ciphertext := er.1.2 } }
          .ok (persist { st1 with cs := er.2, config := some newCfg })

/-! # Theorems -/

/-- C3: In the Locked state, each of setMasterPassword, removeMasterPassword,
rotateKeys, getData, setData and exportData rejects with LockedError, and
neither the in-RAM config nor the persisted bundle is changed by the failed
call: every one of the six operations returns `LockedError` together with
the state it was given. -/
theorem locked_ops_reject_and_preserve_state (pw : String) (v : Json)
    (cp : Option String) (st : SLSState) :
    lockedSetMasterPassword pw st = (.error .locked, st) ∧
    lockedRemoveMasterPassword st = (.error .locked, st) ∧
    lockedRotateKeys st = (.error .locked, st) ∧
    lockedGetData st = (.error .locked, st) ∧
    lockedSetData v st = (.error .locked, st) ∧
    lockedExportData cp st = (.error .locked, st) :=
  ⟨rfl, rfl, rfl, rfl, rfl, rfl⟩

/-- C9 counterexample: a 17-byte salt does not equal 16 bytes, yet
`deriveKekFromPassword` accepts it (the source check is
`salt.byteLength < SLS_CONSTANTS.SALT_LEN`), so the claimed
"rejects iff the salt's length differs from 16" is false. -/
theorem deriveKek_accepts_17_byte_salt :
    (List.replicate 17 0).length ≠ 16 ∧
    deriveKekFromPassword "pw" (List.replicate 17 0) 20 =
      .ok (KeyId.derived "pw" (List.replicate 17 0) 20) := by
  constructor
  · decide
  · rfl

/-- C9 amended: `deriveKekFromPassword(password, salt, rounds)` throws
`ValidationError` if and only if the password is empty, the salt is shorter
than 16 bytes, or rounds is not in [1, 64]; salts of 16 bytes or longer are
accepted. -/
theorem deriveKek_validation_iff (password : String) (salt : List Nat)
    (rounds : Nat) :
    deriveKekFromPassword password salt rounds = .error SlsErr.validation ↔
      (password.length = 0 ∨ salt.length < SALT_LEN ∨ rounds < 1 ∨
        MAX_ITERATIONS < rounds) := by
  by_cases h1 : password.length = 0
  · simp [deriveKekFromPassword, h1]
  · by_cases h2 : salt.length < SALT_LEN
    · simp [deriveKekFromPassword, h1, h2]
    · by_cases h3 : rounds < 1 ∨ rounds > MAX_ITERATIONS
      · simp only [deriveKekFromPassword, if_neg h1, if_neg h2, if_pos h3]
        constructor
        · intro _
          tauto
        · intro _
          trivial
      · simp only [deriveKekFromPassword, if_neg h1, if_neg h2, if_neg h3]
        rw [not_or] at h3
        constructor
        · intro h
          cases h
        · intro h
          tauto

/-- C8: `deletePersistent(cfgA)` on a shared database holding records for
key ids "A" and "B" removes B's record as well: the implementation deletes
the whole database (`indexedDB.deleteDatabase(cfg.dbName)`), contradicting
the surgical-delete requirement and the repository's own test
`crypto.deviceKeyProvider.deletePersistent.surgical.spec.ts`. -/
theorem deletePersistent_deletes_sibling_record :
    let cfgA : IdbConfig := ⟨"SLS_SHARED", "keys", "A"⟩
    let cfgB : IdbConfig := ⟨"SLS_SHARED", "keys", "B"⟩
    let st : SLSState :=
      { config := none, dek := none, session := SessionCache.empty
        stored := none, mem := []
        idb := [("SLS_SHARED",
                 [("keys", [("A", KeyId.fresh 1), ("B", KeyId.fresh 2)])])]
        cs := ⟨0, [], []⟩ }
    idbGet st.idb cfgB = some (KeyId.fresh 2) ∧
    idbGet (deletePersistentProvider cfgA st).idb cfgB = none := by
  constructor
  · rfl
  · rfl

/-- A three-mebibyte string: a concrete import payload longer than 2 MiB. -/
def threeMiBString : String :=
  String.mk (List.replicate (3 * 1024 * 1024) 'x')

/-- A well-formed V3 bundle whose ciphertext field alone is about 3 MiB:
realistic contents for a serialized bundle of that size. -/
def threeMiBBundle : PersistedConfig :=
  { header :=
      { v := 3, salt := "", rounds := 1, iv := "aXY=", wrappedKey := "d2s="
        mPw := none, ctx := some "export" }
    data := { iv := "aXY=", ciphertext := threeMiBString } }

theorem threeMiBString_length : threeMiBString.length = 3 * 1024 * 1024 := by
  show (List.replicate (3 * 1024 * 1024) 'x').length = 3 * 1024 * 1024
  exact List.length_replicate _ _

/-- C2: the size guard of `Portability.parseAndClassify` runs before any
parsing, but the constant is `15 * 1024 * 1024` (annotated `// 2 MiB` in the
source): every string is compared against 15 MiB, so a 3 MiB payload — over
the documented 2 MiB limit — passes the guard and is parsed and accepted. -/
theorem parseAndClassify_guard_is_15MiB_not_2MiB :
    (∀ (parse : String → Option PersistedConfig) (json : String)
      (supported : List Nat), MAX_BUNDLE_CHARS < json.length →
        parseAndClassify parse json supported =
          .error (.importErr "Export payload too large")) ∧
    TWO_MIB < threeMiBString.length ∧
    parseAndClassify (fun _ => some threeMiBBundle) threeMiBString
        SUPPORTED_VERSIONS =
      .ok (threeMiBBundle, false) := by
  refine ⟨?_, ?_, ?_⟩
  · intro parse json supported h
    unfold parseAndClassify
    simp [Nat.not_le.mpr h, h]
  · rw [threeMiBString_length]
    norm_num [TWO_MIB]
  · unfold parseAndClassify
    have hlen : ¬ (MAX_BUNDLE_CHARS < threeMiBString.length) := by
      rw [threeMiBString_length]
      norm_num [MAX_BUNDLE_CHARS]
    simp [hlen, threeMiBBundle, SUPPORTED_VERSIONS]

/-! ## Salt-rounds invariant lemmas (for C4) -/

theorem isValidConfig_salt_iff (c : PersistedConfig)
    (h : isValidConfig (some c) = true) :
    (c.header.salt = "" ↔ c.header.rounds = 1) := by
  simp only [isValidConfig] at h
  by_cases h0 : ¬ (SUPPORTED_VERSIONS.contains c.header.v)
  · rw [if_pos h0] at h
    cases h
  · rw [if_neg h0] at h
    by_cases h1 : c.header.rounds < 1
    · rw [if_pos h1] at h
      cases h
    · rw [if_neg h1] at h
      by_cases h2 : (c.header.rounds == 1 && c.header.salt != "") = true
      · rw [if_pos h2] at h
        cases h
      · rw [if_neg h2] at h
        by_cases h3 : (c.header.rounds != 1 && c.header.salt == "") = true
        · rw [if_pos h3] at h
          cases h
        · simp only [Bool.and_eq_true, beq_iff_eq, bne_iff_ne, ne_eq,
            not_and, not_not] at h2 h3
          constructor
          · intro hs
            by_contra hr
            exact (h3 hr) hs
          · intro hr
            by_contra hs
            exact hs (h2 hr)

theorem validateBundle_salt_iff (c : PersistedConfig)
    (h : validateBundle c = .ok ()) :
    (c.header.salt = "" ↔ c.header.rounds = 1) := by
  simp only [validateBundle] at h
  by_cases h1 : c.header.rounds < 1
  · rw [if_pos h1] at h
    cases h
  · rw [if_neg h1] at h
    by_cases h2 : (c.header.rounds == 1 && c.header.salt != "") = true
    · rw [if_pos h2] at h
      cases h
    · rw [if_neg h2] at h
      by_cases h3 : (c.header.rounds != 1 && c.header.salt == "") = true
      · rw [if_pos h3] at h
        cases h
      · simp only [Bool.and_eq_true, beq_iff_eq, bne_iff_ne, ne_eq,
          not_and, not_not] at h2 h3
        constructor
        · intro hs
          by_contra hr
          exact (h3 hr) hs
        · intro hr
          by_contra hs
          exact hs (h2 hr)

theorem createNewStore_salt_iff (env : Env) (st st' : SLSState)
    (h : createNewStore env st = .ok st') (c' : PersistedConfig)
    (hc : st'.config = some c') :
    (c'.header.salt = "" ↔ c'.header.rounds = 1) := by
  simp only [createNewStore] at h
  split at h
  · cases h
  · cases h
    simp only [persist] at hc
    cases hc
    simp

theorem rotateKeysDevice_salt_iff (env : Env) (st st' : SLSState)
    (h : rotateKeysDevice env st = .ok st') (c' : PersistedConfig)
    (hc : st'.config = some c') :
    (c'.header.salt = "" ↔ c'.header.rounds = 1) := by
  simp only [rotateKeysDevice] at h
  split at h
  · cases h
  · split at h
    · cases h
    · split at h
      · cases h
      · split at h
        · cases h
        · cases h
          simp only [persist] at hc
          cases hc
          simp

theorem setMasterPasswordDevice_salt_iff (env : Env) (pw : String)
    (st st' : SLSState) (h : setMasterPasswordDevice env pw st = .ok st')
    (c' : PersistedConfig) (hc : st'.config = some c') :
    (c'.header.salt = "" ↔ c'.header.rounds = 1) := by
  simp only [setMasterPasswordDevice] at h
  split at h
  · cases h
  · split at h
    · cases h
    · split at h
      · cases h
      · split at h
        · cases h
        · split at h
          · cases h
          · split at h
            · cases h
            · split at h
              · cases h
              · cases h
                simp only [persist] at hc
                cases hc
                simp only [ARGON2_ITERATIONS]
                constructor
                · intro hs
                  exact absurd hs (saltMint_ne_empty _)
                · intro hr
                  cases hr

theorem removeMasterPasswordMaster_salt_iff (env : Env) (st st' : SLSState)
    (h : removeMasterPasswordMaster env st = .ok st') (c' : PersistedConfig)
    (hc : st'.config = some c') :
    (c'.header.salt = "" ↔ c'.header.rounds = 1) := by
  simp only [removeMasterPasswordMaster] at h
  split at h
  · cases h
  · split at h
    · cases h
    · split at h
      · cases h
      · split at h
        · cases h
        · split at h
          · cases h
          · split at h
            · cases h
            · cases h
              simp only [persist] at hc
              cases hc
              simp

theorem rotateMasterPasswordMaster_salt_iff (env : Env)
    (oldPw newPw : String) (st st' : SLSState)
    (h : rotateMasterPasswordMaster env oldPw newPw st = .ok st')
    (c' : PersistedConfig) (hc : st'.config = some c') :
    (c'.header.salt = "" ↔ c'.header.rounds = 1) := by
  simp only [rotateMasterPasswordMaster] at h
  split at h
  · cases h
  · split at h
    · cases h
    · split at h
      · cases h
      · split at h
        · cases h
        · split at h
          · cases h
          · split at h
            · cases h
            · split at h
              · cases h
              · split at h
                · cases h
                · split at h
                  · cases h
                  · cases h
                    simp only [persist] at hc
                    cases hc
                    simp only [ARGON2_ITERATIONS]
                    constructor
                    · intro hs
                      exact absurd hs (saltMint_ne_empty _)
                    · intro hr
                      cases hr

theorem migrateV2ToV3_salt_iff (env : Env) (device : Bool)
    (v2 : PersistedConfig) (kek : KeyId) (st st' : SLSState)
    (hsrc : v2.header.salt = "" ↔ v2.header.rounds = 1)
    (h : migrateV2ToV3 env device v2 kek st = .ok st')
    (c' : PersistedConfig) (hc : st'.config = some c') :
    (c'.header.salt = "" ↔ c'.header.rounds = 1) := by
  simp only [migrateV2ToV3] at h
  split at h
  · cases h
  · split at h
    · cases h
    · split at h
      · cases h
      · cases h
        simp only [persist] at hc
        cases hc
        cases device
        · simpa using hsrc
        · simp

theorem exportDataFacade_salt_iff (env : Env) (cp : Option String)
    (st st' : SLSState) (c : PersistedConfig) (bundle : PersistedConfig)
    (hst : st.config = some c) (hvalid : isValidConfig (some c) = true)
    (h : exportDataFacade env cp st = .ok (bundle, st')) :
    (bundle.header.salt = "" ↔ bundle.header.rounds = 1) := by
  simp only [exportDataFacade, hst] at h
  split at h
  · cases h
  · split at h
    · cases h
    · split at h
      · cases h
      · split at h
        · cases h
        · split at h
          · cases h
          · cases h
            rename_i heq
            split at heq
            · -- reuse branch: salt and rounds from the current valid config
              split at heq
              · cases heq
              · cases heq
                exact isValidConfig_salt_iff c hvalid
            · -- custom-password branch
              split at heq
              · cases heq
              · split at heq
                · cases heq
                · split at heq
                  · cases heq
                  · split at heq
                    · cases heq
                    · cases heq
                      simp only [genSalt, ARGON2_ITERATIONS]
                      constructor
                      · intro hs
                        exact absurd hs (saltMint_ne_empty _)
                      · intro hr
                        cases hr

theorem importDataFacade_salt_iff (env : Env)
    (parse : String → Option PersistedConfig) (serialized : String)
    (password : Option String) (st st' : SLSState) (s : String)
    (h : importDataFacade env parse serialized password st = .ok (s, st'))
    (c' : PersistedConfig) (hc : st'.config = some c') :
    (c'.header.salt = "" ↔ c'.header.rounds = 1) := by
  simp only [importDataFacade] at h
  split at h
  · cases h
  · split at h
    · cases h
    · rename_i x1 bundle flag hpb x2 u hvb
      split at h
      · cases h
      · split at h
        · cases h
        · split at h
          · -- master-protected import
            split at h
            · cases h
            · split at h
              · -- re-wrap path: salt and rounds copied from the bundle
                split at h
                · cases h
                · split at h
                  · cases h
                  · split at h
                    · cases h
                    · split at h
                      · cases h
                      · cases h
                        simp only [persist] at hc
                        cases hc
                        exact validateBundle_salt_iff bundle hvb
              · -- adopt-verbatim path: the accepted bundle itself
                cases h
                simp only [persist] at hc
                cases hc
                exact validateBundle_salt_iff _ hvb
          · -- custom-export import: fresh device header
            split at h
            · cases h
            · rename_i st2 hcustom
              split at hcustom
              · cases hcustom
              · split at hcustom
                · cases hcustom
                · split at hcustom
                  · cases hcustom
                  · split at hcustom
                    · cases hcustom
                    · split at hcustom
                      · cases hcustom
                      · cases hcustom
                        cases h
                        simp only [persist] at hc
                        cases hc
                        simp

/-- C4: Every bundle emitted by the implementation (fresh store creation,
setMasterPassword, removeMasterPassword, rotateMasterPassword, rotateKeys,
V2-to-V3 migration, export, import) and every bundle accepted by validation
satisfies rounds == 1 if and only if salt == "".  (For the migration's
master branch the source header comes from a bundle that already passed
validation, and the master-mode export reuse branch reuses fields of the
valid current config; those are the stated hypotheses.) -/
theorem salt_rounds_invariant_all_emissions :
    (∀ c, isValidConfig (some c) = true →
      (c.header.salt = "" ↔ c.header.rounds = 1)) ∧
    (∀ c, validateBundle c = .ok () →
      (c.header.salt = "" ↔ c.header.rounds = 1)) ∧
    (∀ env st st' c', createNewStore env st = .ok st' →
      st'.config = some c' → (c'.header.salt = "" ↔ c'.header.rounds = 1)) ∧
    (∀ env pw st st' c', setMasterPasswordDevice env pw st = .ok st' →
      st'.config = some c' → (c'.header.salt = "" ↔ c'.header.rounds = 1)) ∧
    (∀ env st st' c', removeMasterPasswordMaster env st = .ok st' →
      st'.config = some c' → (c'.header.salt = "" ↔ c'.header.rounds = 1)) ∧
    (∀ env p1 p2 st st' c', rotateMasterPasswordMaster env p1 p2 st = .ok st'
      → st'.config = some c' →
      (c'.header.salt = "" ↔ c'.header.rounds = 1)) ∧
    (∀ env st st' c', rotateKeysDevice env st = .ok st' →
      st'.config = some c' → (c'.header.salt = "" ↔ c'.header.rounds = 1)) ∧
    (∀ env device v2 kek st st' c',
      (v2.header.salt = "" ↔ v2.header.rounds = 1) →
      migrateV2ToV3 env device v2 kek st = .ok st' →
      st'.config = some c' → (c'.header.salt = "" ↔ c'.header.rounds = 1)) ∧
    (∀ env cp st st' c bundle, st.config = some c →
      isValidConfig (some c) = true →
      exportDataFacade env cp st = .ok (bundle, st') →
      (bundle.header.salt = "" ↔ bundle.header.rounds = 1)) ∧
    (∀ env parse serialized password st st' s c',
      importDataFacade env parse serialized password st = .ok (s, st') →
      st'.config = some c' → (c'.header.salt = "" ↔ c'.header.rounds = 1)) :=
  ⟨isValidConfig_salt_iff, validateBundle_salt_iff,
   fun env st st' c' h hc => createNewStore_salt_iff env st st' h c' hc,
   fun env pw st st' c' h hc =>
     setMasterPasswordDevice_salt_iff env pw st st' h c' hc,
   fun env st st' c' h hc =>
     removeMasterPasswordMaster_salt_iff env st st' h c' hc,
   fun env p1 p2 st st' c' h hc =>
     rotateMasterPasswordMaster_salt_iff env p1 p2 st st' h c' hc,
   fun env st st' c' h hc => rotateKeysDevice_salt_iff env st st' h c' hc,
   fun env device v2 kek st st' c' hsrc h hc =>
     migrateV2ToV3_salt_iff env device v2 kek st st' hsrc h c' hc,
   fun env cp st st' c bundle hst hvalid h =>
     exportDataFacade_salt_iff env cp st st' c bundle hst hvalid h,
   fun env parse serialized password st st' s c' h hc =>
     importDataFacade_salt_iff env parse serialized password st st' s h c'
       hc⟩

/-! Concrete runs used by the witness theorems. -/

def env0 : Env := ⟨"app:sls", ⟨"SLS_KEYS", "keys", "deviceKek_v1"⟩⟩

def state0 : SLSState :=
  { config := none, dek := none, session := SessionCache.empty
    stored := none, mem := [], idb := [], cs := ⟨0, [], []⟩ }

/-- The state after a fresh store creation on an empty slot. -/
def state1 : SLSState :=
  match createNewStore env0 state0 with
  | .ok st => st
  | .error _ => state0

def emptyHeader : Header := ⟨0, "", 0, "", "", none, none⟩

def cfg1 : PersistedConfig :=
  state1.config.getD ⟨emptyHeader, ⟨"", ""⟩⟩

/-- C4 witness: the fresh-store conjunct applied to a concrete run. -/
theorem salt_rounds_invariant_witness :
    cfg1.header.salt = "" ↔ cfg1.header.rounds = 1 :=
  salt_rounds_invariant_all_emissions.2.2.1 env0 state0 state1 cfg1
    (by rfl) (by rfl)

/-! ## C1: the data AAD binds the wrap header -/

theorem string_length_eq_data_length (s : String) :
    s.length = s.data.length := rfl

/-- `buildDataAad` is injective in the (ivWrap, wrappedKey) pair when the
replacement iv has the original's length (a byte flip preserves length):
the `|`-separated layout with equal-length iv components pins both parts. -/
theorem buildDataAad_inj (sk ctx : String) (v : Nat) (iv wk iv' wk' : String)
    (hlen : iv'.length = iv.length)
    (h : buildDataAad sk ctx v iv' wk' = buildDataAad sk ctx v iv wk) :
    iv' = iv ∧ wk' = wk := by
  have hd := congrArg String.data h
  simp only [buildDataAad, String.data_append, List.append_assoc] at hd
  have hd := List.append_cancel_left hd
  have hd := List.append_cancel_left hd
  have hd := List.append_cancel_left hd
  have hd := List.append_cancel_left hd
  have hd := List.append_cancel_left hd
  have hlen2 : iv'.data.length = iv.data.length := hlen
  obtain ⟨hiv, hrest⟩ := List.append_inj hd hlen2
  have hwk := List.append_cancel_left hrest
  exact ⟨String.ext hiv, String.ext hwk⟩

/-- C1: For every V3 bundle whose data ciphertext was produced under the
current data AAD (as all implementation-produced bundles are), the AAD
equals `sls|data|v3|<root>|<header.iv>|<header.wrappedKey>`, and decrypting
the unchanged data section under the AAD rebuilt from any modified pair
(iv', wk') — a byte flip of `header.iv` or `header.wrappedKey`, or a
replacement by a different validly wrapped pair — fails with a CryptoError
(the AES-GCM authentication failure) for every key, in particular for the
DEK that any correctly-unwrapping KEK yields. -/
theorem data_aad_binds_header (env : Env) (c : PersistedConfig)
    (cs : CryptoState) (r : CtRec)
    (hv : c.header.v = 3)
    (hlook : lookupCt cs (c.data.iv, c.data.ciphertext) = some r)
    (hbound : r.aad = getAadFor env.storageKey false c)
    (iv' wk' : String)
    (hlen : iv'.length = c.header.iv.length)
    (hne : ¬(iv' = c.header.iv ∧ wk' = c.header.wrappedKey))
    (hdiv : c.data.iv ≠ "") (hdct : c.data.ciphertext ≠ "") :
    getAadFor env.storageKey false c =
      some (buildDataAad env.storageKey (c.header.ctx.getD "store") 3
        c.header.iv c.header.wrappedKey) ∧
    ∀ key, decryptData key c.data.iv c.data.ciphertext
        (some (buildDataAad env.storageKey (c.header.ctx.getD "store") 3
          iv' wk')) cs = .error .crypto := by
  have haad : getAadFor env.storageKey false c =
      some (buildDataAad env.storageKey (c.header.ctx.getD "store") 3
        c.header.iv c.header.wrappedKey) := by
    simp [getAadFor, isV3, hv]
  refine ⟨haad, fun key => ?_⟩
  unfold decryptData
  rw [if_neg (by simp [hdiv, hdct])]
  rw [hlook]
  dsimp only
  rw [if_neg]
  intro ⟨_, haad2⟩
  rw [hbound, haad] at haad2
  have heq := Option.some.inj haad2
  exact hne (buildDataAad_inj env.storageKey (c.header.ctx.getD "store") 3
    c.header.iv c.header.wrappedKey iv' wk' hlen heq.symm)

/-- The ledger record behind the freshly created store's data section. -/
def rec1 : CtRec :=
  (lookupCt state1.cs (cfg1.data.iv, cfg1.data.ciphertext)).getD
    ⟨KeyId.fresh 0, Json.obj [], none⟩

/-- C1 witness: on the concrete fresh store, flipping the last byte of
`header.iv` (length preserved) makes data decryption fail with CryptoError
for any key. -/
theorem data_aad_binding_witness :
    decryptData (KeyId.fresh 0) cfg1.data.iv cfg1.data.ciphertext
      (some (buildDataAad env0.storageKey (cfg1.header.ctx.getD "store") 3
        "rrs" cfg1.header.wrappedKey)) state1.cs = .error .crypto :=
  (data_aad_binds_header env0 cfg1 state1.cs rec1 (by rfl) (by rfl) (by rfl)
    "rrs" cfg1.header.wrappedKey (by decide) (by decide) (by decide)
    (by decide)).2 (KeyId.fresh 0)

/-! ## C5: exportData mode semantics -/

theorem getDeviceKey_frame (cfg : IdbConfig) (st : SLSState) :
    (getDeviceKey cfg st).2.session = st.session ∧
    (getDeviceKey cfg st).2.config = st.config ∧
    (getDeviceKey cfg st).2.dek = st.dek ∧
    st.cs.nextId ≤ (getDeviceKey cfg st).2.cs.nextId := by
  unfold getDeviceKey
  split
  · exact ⟨rfl, rfl, rfl, le_refl _⟩
  · split
    · exact ⟨rfl, rfl, rfl, le_refl _⟩
    · exact ⟨rfl, rfl, rfl, by simp [genKey]⟩

theorem ensureDekLoaded_frame (env : Env) (b : Bool) (c : PersistedConfig)
    (st st1 : SLSState) (d : KeyId)
    (h : ensureDekLoaded env b c st = .ok (d, st1)) :
    st1.session = st.session ∧ st1.config = st.config ∧
    st.cs.nextId ≤ st1.cs.nextId := by
  unfold ensureDekLoaded at h
  split at h
  · cases h
    exact ⟨rfl, rfl, le_refl _⟩
  · split at h
    · split at h
      · cases h
      · split at h
        · cases h
        · cases h
          exact ⟨rfl, rfl, le_refl _⟩
    · split at h
      rename_i dk st1x heq2
      split at h
      · cases h
      · cases h
        have h2 : (getDeviceKey env.idbCfg st).2 = st1x := by rw [heq2]
        rw [← h2]
        exact ⟨(getDeviceKey_frame env.idbCfg st).1,
          (getDeviceKey_frame env.idbCfg st).2.1,
          (getDeviceKey_frame env.idbCfg st).2.2.2⟩

theorem lookupWrap_wrapDek_self (dek kek : KeyId) (aad : Option String)
    (cs : CryptoState) :
    lookupWrap (wrapDek dek kek aad cs).2
      ((wrapDek dek kek aad cs).1.1, (wrapDek dek kek aad cs).1.2) =
      some ⟨kek, dek, aad⟩ := by
  simp [lookupWrap, wrapDek]

theorem lookupWrap_encryptData (key : KeyId) (pt : Json)
    (aad : Option String) (cs : CryptoState) (k : String × String) :
    lookupWrap (encryptData key pt aad cs).2 k = lookupWrap cs k := rfl

/-- C5: exportData semantics.  With no custom password (absent, or the
empty string, which is falsy) in master mode, the exported bundle reuses
the current salt and rounds and wraps the DEK under the cached session
KEK, with `mPw = true`.  With a custom non-blank password (either mode),
the bundle carries a freshly minted salt, the default rounds, and a KEK
derived from the custom password, with `mPw = false`.  In device mode an
absent or blank custom password raises `ExportError`.  Each part is stated
under the hypotheses that the preceding load, decrypt and re-unwrap steps
of the call succeed, which they do on any implementation-produced store. -/
theorem exportData_modes (env : Env) (st : SLSState) (c : PersistedConfig)
    (hst : st.config = some c) :
    (∀ cp dek0 st1 plain kek dekX, (cp = none ∨ cp = some "") →
      1 < c.header.rounds →
      ensureDekLoaded env (decide (1 < c.header.rounds)) c st =
        .ok (dek0, st1) →
      decryptCurrentData env c dek0 st1.cs = .ok plain →
      SessionCache.matchc st.session c.header.salt c.header.rounds =
        some kek →
      unwrapDek c.header.iv c.header.wrappedKey kek true
        (getAadFor env.storageKey true c) st1.cs = .ok dekX →
      ∃ bundle st', exportDataFacade env cp st = .ok (bundle, st') ∧
        bundle.header.salt = c.header.salt ∧
        bundle.header.rounds = c.header.rounds ∧
        bundle.header.mPw = some true ∧
        ∃ wrec, lookupWrap st'.cs
            (bundle.header.iv, bundle.header.wrappedKey) = some wrec ∧
          wrec.kek = kek) ∧
    (∀ p dek0 st1 plain kekA stA dekX, (jsTrim p).length ≠ 0 →
      ensureDekLoaded env (decide (1 < c.header.rounds)) c st =
        .ok (dek0, st1) →
      decryptCurrentData env c dek0 st1.cs = .ok plain →
      (if 1 < c.header.rounds then
          match sessionKekOrThrow c st1 with
          | Except.error e => Except.error e
          | Except.ok kek => Except.ok (kek, st1)
        else Except.ok (getDeviceKey env.idbCfg st1)) = .ok (kekA, stA) →
      unwrapDek c.header.iv c.header.wrappedKey kekA true
        (getAadFor env.storageKey true c) stA.cs = .ok dekX →
      st.cs.nextId ≤ stA.cs.nextId →
      ∃ bundle st', exportDataFacade env (some p) st = .ok (bundle, st') ∧
        bundle.header.mPw = some false ∧
        bundle.header.rounds = ARGON2_ITERATIONS ∧
        (∃ m, st.cs.nextId ≤ m ∧ bundle.header.salt = saltMint m) ∧
        ∃ saltBytes, base64ToBytes? bundle.header.salt = some saltBytes ∧
          ∃ wrec, lookupWrap st'.cs
              (bundle.header.iv, bundle.header.wrappedKey) = some wrec ∧
            wrec.kek = KeyId.derived p saltBytes ARGON2_ITERATIONS) ∧
    (∀ cp dek0 st1 plain dekX, ¬ 1 < c.header.rounds →
      (cp = none ∨ ∃ p, cp = some p ∧ (jsTrim p).length = 0) →
      ensureDekLoaded env (decide (1 < c.header.rounds)) c st =
        .ok (dek0, st1) →
      decryptCurrentData env c dek0 st1.cs = .ok plain →
      unwrapDek c.header.iv c.header.wrappedKey
        (getDeviceKey env.idbCfg st1).1 true
        (getAadFor env.storageKey true c)
        (getDeviceKey env.idbCfg st1).2.cs = .ok dekX →
      exportDataFacade env cp st = .error .exportErr) := by
  refine ⟨?_, ?_, ?_⟩
  · intro cp dek0 st1 plain kek dekX hpw hm hens hdec hsess hunw
    have hfr := ensureDekLoaded_frame env _ c st st1 dek0 hens
    have hs1 : sessionKekOrThrow c st1 = .ok kek := by
      simp [sessionKekOrThrow, hfr.1, hsess]
    simp only [exportDataFacade, hst, hens, hdec, if_pos hm, hs1]
    have hst3 : sessionKekOrThrow c { st1 with dek := some dekX } =
        .ok kek := by
      simp [sessionKekOrThrow, hfr.1, hsess]
    simp only [hunw, if_pos (And.intro hpw hm), hst3]
    refine ⟨_, _, rfl, rfl, rfl, rfl, ?_⟩
    refine ⟨⟨kek, dekX, some (buildWrapAad env.storageKey "export"
      MIGRATION_TARGET_VERSION)⟩, ?_, rfl⟩
    rw [lookupWrap_encryptData]
    exact lookupWrap_wrapDek_self _ _ _ _
  · intro p dek0 st1 plain kekA stA dekX hp hens hdec hact hunw hmono
    have hplen : p.length ≠ 0 := by
      intro h0
      have hpe : p = "" := by
        cases p with
        | mk data =>
          cases data with
          | nil => rfl
          | cons a l => simp [String.length] at h0
      rw [hpe] at hp
      exact hp (by decide)
    have hpwne : ¬ ((some p = none ∨ some p = some "") ∧
        1 < c.header.rounds) := by
      intro ⟨hor, _⟩
      rcases hor with h0 | h0
      · cases h0
      · cases Option.some.inj h0
        exact hp (by decide)
    have hsb : base64ToBytes? (genSalt stA.cs).1 =
        some ((saltMint stA.cs.nextId).data.map Char.toNat) := by
      simp [genSalt, base64ToBytes?, saltMint_ne_empty]
    have hder : deriveKekFromPassword p
        ((saltMint stA.cs.nextId).data.map Char.toNat) ARGON2_ITERATIONS =
        .ok (KeyId.derived p
          ((saltMint stA.cs.nextId).data.map Char.toNat)
          ARGON2_ITERATIONS) := by
      have hsl : ¬ (((saltMint stA.cs.nextId).data.map Char.toNat).length <
          SALT_LEN) := by
        rw [List.length_map]
        have : (saltMint stA.cs.nextId).data.length =
            stA.cs.nextId + SALT_LEN := saltMint_length _
        omega
      unfold deriveKekFromPassword
      rw [if_neg hplen, if_neg hsl, if_neg (by decide)]
    simp only [exportDataFacade, hst, hens, hdec, hact, hunw, if_neg hpwne]
    simp only [if_neg (by simpa using hp), hsb, hder]
    refine ⟨_, _, rfl, rfl, rfl, ⟨stA.cs.nextId, hmono, by simp [genSalt]⟩,
      ((saltMint stA.cs.nextId).data.map Char.toNat), ?_, ?_⟩
    · simpa [genSalt] using hsb
    · refine ⟨⟨KeyId.derived p ((saltMint stA.cs.nextId).data.map Char.toNat)
        ARGON2_ITERATIONS, dekX, some (buildWrapAad env.storageKey "export"
        MIGRATION_TARGET_VERSION)⟩, ?_, rfl⟩
      rw [lookupWrap_encryptData]
      exact lookupWrap_wrapDek_self _ _ _ _
  · intro cp dek0 st1 plain dekX hm hblank hens hdec hunw
    simp only [exportDataFacade, hst, hens, hdec]
    have hdev : (if 1 < c.header.rounds then
        match sessionKekOrThrow c st1 with
        | Except.error e => Except.error e
        | Except.ok kek => Except.ok (kek, st1)
      else Except.ok (getDeviceKey env.idbCfg st1)) =
        Except.ok (getDeviceKey env.idbCfg st1) := if_neg hm
    rw [hdev]
    simp only [hunw]
    have hnot : ¬ ((cp = none ∨ cp = some "") ∧ 1 < c.header.rounds) := by
      intro ⟨_, hmm⟩
      exact hm hmm
    rw [if_neg hnot]
    rcases hblank with h0 | ⟨p, hp, hp0⟩
    · rw [h0]
    · rw [hp]
      simp [hp0]

/-- The state after `setMasterPassword("pw")` on the fresh store. -/
def state2 : SLSState :=
  match setMasterPasswordDevice env0 "pw" state1 with
  | .ok st => st
  | .error _ => state1

def cfg2 : PersistedConfig :=
  state2.config.getD ⟨emptyHeader, ⟨"", ""⟩⟩

/-- The session KEK cached by the concrete `setMasterPassword` run. -/
def kek2 : KeyId :=
  (SessionCache.matchc state2.session cfg2.header.salt
    cfg2.header.rounds).getD (KeyId.fresh 0)

/-- C5 witness: the master-mode reuse conjunct applied to the concrete
master-mode store: exporting without a custom password reuses the session
KEK and the current salt and rounds and marks `mPw = true`. -/
theorem exportData_modes_witness :
    ∃ bundle st', exportDataFacade env0 none state2 = .ok (bundle, st') ∧
      bundle.header.salt = cfg2.header.salt ∧
      bundle.header.rounds = cfg2.header.rounds ∧
      bundle.header.mPw = some true ∧
      ∃ wrec, lookupWrap st'.cs
          (bundle.header.iv, bundle.header.wrappedKey) = some wrec ∧
        wrec.kek = kek2 :=
  (exportData_modes env0 state2 cfg2 (by rfl)).1 none (KeyId.fresh 0) state2
    (Json.obj []) kek2 (KeyId.fresh 0) (Or.inl rfl) (by decide) (by rfl)
    (by rfl) (by rfl) (by rfl)

/-! ## C10: a failed unlock leaves no key material cached -/

/-- C10: Whenever `unlock(masterPassword)` rejects because the password does
not unwrap the DEK (the derived KEK fails to authenticate the wrapped key),
the call raises `ValidationError`, the session key cache is left empty, the
DEK stays null, and neither the in-RAM config nor the persisted bundle
changes. -/
theorem failed_unlock_clears_session (env : Env) (pw : String)
    (st : SLSState) (c : PersistedConfig) (saltBytes : List Nat)
    (kek : KeyId) (e : SlsErr)
    (hst : st.config = some c) (hdek : st.dek = none)
    (hpw : (jsTrim pw).length ≠ 0)
    (hsb : base64ToBytes? c.header.salt = some saltBytes)
    (hder : deriveKekFromPassword pw saltBytes c.header.rounds = .ok kek)
    (hunw : unwrapDek c.header.iv c.header.wrappedKey kek false
      (getAadFor env.storageKey true c) st.cs = .error e) :
    ∃ st', unlockLocked env pw st = (.error .validation, st') ∧
      st'.session = SessionCache.empty ∧ st'.dek = none ∧
      st'.config = st.config ∧ st'.stored = st.stored := by
  refine ⟨{ st with session := SessionCache.empty }, ?_, rfl, hdek, rfl, rfl⟩
  simp only [unlockLocked, hst, if_neg hpw, hsb, hder]
  simp only [hunw]

/-- The locked state: `lock()` on the master-mode store clears the session
cache and the in-RAM DEK (`MasterPasswordState.lock`). -/
def state3 : SLSState :=
  { state2 with session := SessionCache.empty, dek := none }

/-- C10 witness: unlocking the concrete locked store with the wrong
password rejects with ValidationError and leaves the cache empty, the DEK
null and config and storage untouched. -/
theorem failed_unlock_witness :
    ∃ st', unlockLocked env0 "wrong" state3 =
        (.error .validation, st') ∧
      st'.session = SessionCache.empty ∧ st'.dek = none ∧
      st'.config = state3.config ∧ st'.stored = state3.stored :=
  failed_unlock_clears_session env0 "wrong" state3 cfg2
    (cfg2.header.salt.data.map Char.toNat)
    (KeyId.derived "wrong" (cfg2.header.salt.data.map Char.toNat)
      cfg2.header.rounds) SlsErr.crypto
    (by rfl) (by rfl) (by decide) (by rfl) (by rfl) (by rfl)

/-! ## C7: device-mode key rotation -/

theorem alGet_alPut_self {α : Type} (l : List (String × α)) (k : String)
    (v : α) : alGet (alPut l k v) k = some v := by
  induction l with
  | nil => simp [alPut, alGet]
  | cons hd tl ih =>
    obtain ⟨k0, v0⟩ := hd
    by_cases hk : k0 = k
    · simp [alPut, hk, alGet]
    · simp only [alPut, if_neg hk]
      simpa [alGet, hk] using ih

/-- Unwrapping a freshly wrapped key with the wrapping KEK and AAD yields
the wrapped DEK. -/
theorem unwrapDek_wrapDek_self (dek kek : KeyId) (aad : Option String)
    (cs : CryptoState) :
    unwrapDek (wrapDek dek kek aad cs).1.1 (wrapDek dek kek aad cs).1.2 kek
      false aad (wrapDek dek kek aad cs).2 = .ok dek := by
  simp [unwrapDek, wrapDek, lookupWrap, mint_ne_empty]

/-- `encryptData` does not disturb the wrap ledger. -/
theorem unwrapDek_after_encryptData (key : KeyId) (pt : Json)
    (aad : Option String) (cs : CryptoState) (iv wk : String) (kek : KeyId)
    (fw : Bool) (waad : Option String) :
    unwrapDek iv wk kek fw waad (encryptData key pt aad cs).2 =
      unwrapDek iv wk kek fw waad cs := rfl

/-- Decrypting a fresh encryption with the same key and AAD yields the
plaintext. -/
theorem decryptData_encryptData_self (key : KeyId) (pt : Json)
    (aad : Option String) (cs : CryptoState) :
    decryptData key (encryptData key pt aad cs).1.1
      (encryptData key pt aad cs).1.2 aad (encryptData key pt aad cs).2 =
      .ok pt := by
  simp [decryptData, encryptData, lookupCt, mint_ne_empty]

/-- C7: In device mode, `rotateKeys()` succeeds, changes `header.iv`,
`header.wrappedKey` and the in-process device-KEK identity, and preserves
the decrypted payload: `getData` after the rotation returns exactly the
object stored before it.  Hypotheses: the device KEK is the cached one and
unwraps the header, the payload decrypts to an object, and the cached KEK
and the header strings predate the RNG counter (they were produced by
earlier operations). -/
theorem rotateKeys_device_preserves_payload (env : Env) (st : SLSState)
    (c : PersistedConfig) (kek0 dek0 : KeyId) (kvs : List (String × Json))
    (hst : st.config = some c)
    (hmem : alGet st.mem (memKeyId env.idbCfg) = some kek0)
    (hunw : unwrapDek c.header.iv c.header.wrappedKey kek0 false
      (getAadFor env.storageKey true c) st.cs = .ok dek0)
    (hdec : decryptCurrentData env c dek0 st.cs = .ok (Json.obj kvs))
    (hkekold : ∀ m, st.cs.nextId ≤ m → kek0 ≠ KeyId.fresh m)
    (hivold : ∀ m, st.cs.nextId ≤ m → c.header.iv ≠ mint m)
    (hwkold : ∀ m, st.cs.nextId ≤ m → c.header.wrappedKey ≠ mint m) :
    ∃ st' c', rotateKeysDevice env st = .ok st' ∧ st'.config = some c' ∧
      c'.header.iv ≠ c.header.iv ∧
      c'.header.wrappedKey ≠ c.header.wrappedKey ∧
      (∃ k', alGet st'.mem (memKeyId env.idbCfg) = some k' ∧ k' ≠ kek0) ∧
      getDataDevice env st' = .ok (Json.obj kvs, st') := by
  have hgd : getDeviceKey env.idbCfg st = (kek0, st) := by
    simp [getDeviceKey, hmem]
  simp only [rotateKeysDevice, hst, hgd, hunw, hdec]
  simp only [genKey, rotateDeviceKey, wrapDek, encryptData, persist,
    unwrapDek, lookupWrap, mint_ne_empty, List.find?]
  simp only [beq_self_eq_true, or_self, if_false, eq_self_iff_true,
    and_self, if_true]
  refine ⟨_, _, rfl, rfl, ?_, ?_, ?_, ?_⟩
  · intro h
    exact hivold (st.cs.nextId + 1 + 1) (by omega) h.symm
  · intro h
    exact hwkold (st.cs.nextId + 1 + 1 + 1) (by omega) h.symm
  · refine ⟨KeyId.fresh (st.cs.nextId + 1), alGet_alPut_self _ _ _, ?_⟩
    intro h
    exact hkekold (st.cs.nextId + 1) (by omega) h.symm
  · simp [getDataDevice, ensureDekLoaded, decryptData, lookupCt,
      mint_ne_empty, getAadFor, isV3, MIGRATION_TARGET_VERSION,
      beq_self_eq_true]

/-- C7 witness: rotating the keys of the concrete fresh device-mode store
changes both header fields and the cached device KEK and preserves the
stored (empty-object) payload. -/
theorem rotateKeys_device_witness :
    ∃ st' c', rotateKeysDevice env0 state1 = .ok st' ∧
      st'.config = some c' ∧
      c'.header.iv ≠ cfg1.header.iv ∧
      c'.header.wrappedKey ≠ cfg1.header.wrappedKey ∧
      (∃ k', alGet st'.mem (memKeyId env0.idbCfg) = some k' ∧
        k' ≠ KeyId.fresh 1) ∧
      getDataDevice env0 st' = .ok (Json.obj [], st') :=
  rotateKeys_device_preserves_payload env0 state1 cfg1 (KeyId.fresh 1)
    (KeyId.fresh 0) [] (by rfl) (by rfl) (by rfl) (by rfl)
    (by
      intro m hm h
      cases h
      exact absurd hm (by decide))
    (by
      intro m hm h
      have hl := congrArg String.length h
      rw [mint_length] at hl
      have h3 : cfg1.header.iv.length = 3 := by decide
      rw [h3] at hl
      have hm2 : m = 2 := by omega
      subst hm2
      exact absurd hm (by decide))
    (by
      intro m hm h
      have hl := congrArg String.length h
      rw [mint_length] at hl
      have h4 : cfg1.header.wrappedKey.length = 4 := by decide
      rw [h4] at hl
      have hm3 : m = 3 := by omega
      subst hm3
      exact absurd hm (by decide))

/-! ## C6: setData input validation

Specification-side predicates, independent of the `walkVal` implementation:
a value is serializable exactly when it contains no function, symbol or
BigInt anywhere, and no object or array identity (tag) repeats anywhere in
the tree — repeats cover both cycles (a tag repeated along a path) and
shared references (a tag repeated across branches), which is precisely what
the `WeakSet` in `toPlainJson` rejects. -/

mutual

def hasBadPrim : JsVal → Bool
  | .prim p =>
    match p with
    | .bigint _ => true
    | .fn => true
    | .sym => true
    | _ => false
  | .arr _ elts => hasBadPrimL elts
  | .obj _ _ fields => hasBadPrimF fields

def hasBadPrimL : List JsVal → Bool
  | [] => false
  | v :: rest => hasBadPrim v || hasBadPrimL rest

def hasBadPrimF : List (String × JsVal) → Bool
  | [] => false
  | (_, v) :: rest => hasBadPrim v || hasBadPrimF rest

end

mutual

def tagsVal : JsVal → List Nat
  | .prim _ => []
  | .arr t elts => t :: tagsL elts
  | .obj t _ fields => t :: tagsF fields

def tagsL : List JsVal → List Nat
  | [] => []
  | v :: rest => tagsVal v ++ tagsL rest

def tagsF : List (String × JsVal) → List Nat
  | [] => []
  | (_, v) :: rest => tagsVal v ++ tagsF rest

end

def Good (v : JsVal) (seen : List Nat) : Prop :=
  hasBadPrim v = false ∧ (tagsVal v).Nodup ∧ ∀ t ∈ tagsVal v, t ∉ seen

def GoodL (l : List JsVal) (seen : List Nat) : Prop :=
  hasBadPrimL l = false ∧ (tagsL l).Nodup ∧ ∀ t ∈ tagsL l, t ∉ seen

def GoodF (l : List (String × JsVal)) (seen : List Nat) : Prop :=
  hasBadPrimF l = false ∧ (tagsF l).Nodup ∧ ∀ t ∈ tagsF l, t ∉ seen

theorem good_arr_iff (t : Nat) (elts : List JsVal) (seen : List Nat) :
    Good (.arr t elts) seen ↔ t ∉ seen ∧ GoodL elts (t :: seen) := by
  simp only [Good, GoodL, hasBadPrim, tagsVal, List.nodup_cons,
    List.mem_cons, not_or]
  constructor
  · intro ⟨hb, ⟨hn1, hn2⟩, hm⟩
    refine ⟨(hm t (Or.inl rfl)), hb, hn2, ?_⟩
    intro x hx
    constructor
    · intro hxt
      exact hn1 (hxt ▸ hx)
    · exact (hm x (Or.inr hx))
  · intro ⟨hts, hb, hn, hm⟩
    refine ⟨hb, ⟨?_, hn⟩, ?_⟩
    · intro ht
      exact (hm t ht).1 rfl
    · intro x hx
      rcases hx with hx | hx
      · exact hx ▸ hts
      · exact (hm x hx).2

theorem good_obj_iff (t : Nat) (pl : Bool) (fields : List (String × JsVal))
    (seen : List Nat) :
    Good (.obj t pl fields) seen ↔ t ∉ seen ∧ GoodF fields (t :: seen) := by
  simp only [Good, GoodF, hasBadPrim, tagsVal, List.nodup_cons,
    List.mem_cons, not_or]
  constructor
  · intro ⟨hb, ⟨hn1, hn2⟩, hm⟩
    refine ⟨(hm t (Or.inl rfl)), hb, hn2, ?_⟩
    intro x hx
    constructor
    · intro hxt
      exact hn1 (hxt ▸ hx)
    · exact (hm x (Or.inr hx))
  · intro ⟨hts, hb, hn, hm⟩
    refine ⟨hb, ⟨?_, hn⟩, ?_⟩
    · intro ht
      exact (hm t ht).1 rfl
    · intro x hx
      rcases hx with hx | hx
      · exact hx ▸ hts
      · exact (hm x hx).2

theorem goodL_cons_iff (v : JsVal) (rest : List JsVal) (seen : List Nat) :
    GoodL (v :: rest) seen ↔
      Good v seen ∧ GoodL rest ((tagsVal v).reverse ++ seen) := by
  simp only [Good, GoodL, hasBadPrimL, tagsL, List.nodup_append,
    Bool.or_eq_false_iff, List.mem_append, List.mem_reverse,
    List.Disjoint, not_or]
  constructor
  · intro ⟨⟨hb1, hb2⟩, ⟨hn1, hn2, hdisj⟩, hm⟩
    refine ⟨⟨hb1, hn1, fun x hx => (hm x (Or.inl hx))⟩,
      hb2, hn2, ?_⟩
    intro x hx
    exact ⟨fun hxa => hdisj hxa hx, (hm x (Or.inr hx))⟩
  · intro ⟨⟨hb1, hn1, hm1⟩, hb2, hn2, hm2⟩
    refine ⟨⟨hb1, hb2⟩, ⟨hn1, hn2, ?_⟩, ?_⟩
    · intro x hxa hxb
      exact (hm2 x hxb).1 hxa
    · intro x hx
      rcases hx with hx | hx
      · exact hm1 x hx
      · exact (hm2 x hx).2

theorem goodF_cons_iff (k : String) (v : JsVal)
    (rest : List (String × JsVal)) (seen : List Nat) :
    GoodF ((k, v) :: rest) seen ↔
      Good v seen ∧ GoodF rest ((tagsVal v).reverse ++ seen) := by
  simp only [Good, GoodF, hasBadPrimF, tagsF, List.nodup_append,
    Bool.or_eq_false_iff, List.mem_append, List.mem_reverse,
    List.Disjoint, not_or]
  constructor
  · intro ⟨⟨hb1, hb2⟩, ⟨hn1, hn2, hdisj⟩, hm⟩
    refine ⟨⟨hb1, hn1, fun x hx => (hm x (Or.inl hx))⟩,
      hb2, hn2, ?_⟩
    intro x hx
    exact ⟨fun hxa => hdisj hxa hx, (hm x (Or.inr hx))⟩
  · intro ⟨⟨hb1, hn1, hm1⟩, hb2, hn2, hm2⟩
    refine ⟨⟨hb1, hb2⟩, ⟨hn1, hn2, ?_⟩, ?_⟩
    · intro x hxa hxb
      exact (hm2 x hxb).1 hxa
    · intro x hx
      rcases hx with hx | hx
      · exact hm1 x hx
      · exact (hm2 x hx).2

mutual

/-- Characterization of the `toPlainJson` walk: it succeeds (returning the
visited tags prepended to the seen-set) exactly on `Good` values, and
raises `ValidationError` on all others. -/
theorem walk_spec : ∀ (v : JsVal) (seen : List Nat),
    (Good v seen → ∃ out, walkVal seen v =
      .ok (out, (tagsVal v).reverse ++ seen)) ∧
    (¬ Good v seen → walkVal seen v = .error .validation)
  | .prim .null, seen =>
    ⟨fun _ => ⟨some Json.null, by simp [walkVal, tagsVal]⟩,
     fun hng => absurd (by simp [Good, hasBadPrim, tagsVal]) hng⟩
  | .prim .undef, seen =>
    ⟨fun _ => ⟨none, by simp [walkVal, tagsVal]⟩,
     fun hng => absurd (by simp [Good, hasBadPrim, tagsVal]) hng⟩
  | .prim (.bool b), seen =>
    ⟨fun _ => ⟨some (Json.bool b), by simp [walkVal, tagsVal]⟩,
     fun hng => absurd (by simp [Good, hasBadPrim, tagsVal]) hng⟩
  | .prim (.num n), seen =>
    ⟨fun _ => ⟨some (Json.num n), by simp [walkVal, tagsVal]⟩,
     fun hng => absurd (by simp [Good, hasBadPrim, tagsVal]) hng⟩
  | .prim (.str s), seen =>
    ⟨fun _ => ⟨some (Json.str s), by simp [walkVal, tagsVal]⟩,
     fun hng => absurd (by simp [Good, hasBadPrim, tagsVal]) hng⟩
  | .prim (.bigint n), seen =>
    ⟨fun hg => absurd hg (by simp [Good, hasBadPrim]), fun _ => rfl⟩
  | .prim .fn, seen =>
    ⟨fun hg => absurd hg (by simp [Good, hasBadPrim]), fun _ => rfl⟩
  | .prim .sym, seen =>
    ⟨fun hg => absurd hg (by simp [Good, hasBadPrim]), fun _ => rfl⟩
  | .arr t elts, seen => by
    have ihL := walkL_spec elts (t :: seen)
    constructor
    · intro hg
      rw [good_arr_iff] at hg
      obtain ⟨hts, hgl⟩ := hg
      obtain ⟨outs, houts⟩ := ihL.1 hgl
      refine ⟨some (Json.arr outs), ?_⟩
      simp only [walkVal, if_neg hts, houts]
      simp [tagsVal, List.append_assoc]
    · intro hng
      rw [good_arr_iff] at hng
      by_cases hts : t ∈ seen
      · simp [walkVal, hts]
      · have hngl : ¬ GoodL elts (t :: seen) := fun hgl => hng ⟨hts, hgl⟩
        have herr := ihL.2 hngl
        simp [walkVal, hts, herr]
  | .obj t pl fields, seen => by
    have ihF := walkF_spec fields (t :: seen)
    constructor
    · intro hg
      rw [good_obj_iff] at hg
      obtain ⟨hts, hgf⟩ := hg
      obtain ⟨outs, houts⟩ := ihF.1 hgf
      refine ⟨some (Json.obj outs), ?_⟩
      simp only [walkVal, if_neg hts, houts]
      simp [tagsVal, List.append_assoc]
    · intro hng
      rw [good_obj_iff] at hng
      by_cases hts : t ∈ seen
      · simp [walkVal, hts]
      · have hngf : ¬ GoodF fields (t :: seen) := fun hgf => hng ⟨hts, hgf⟩
        have herr := ihF.2 hngf
        simp [walkVal, hts, herr]

theorem walkL_spec : ∀ (l : List JsVal) (seen : List Nat),
    (GoodL l seen → ∃ outs, walkList seen l =
      .ok (outs, (tagsL l).reverse ++ seen)) ∧
    (¬ GoodL l seen → walkList seen l = .error .validation)
  | [], seen =>
    ⟨fun _ => ⟨[], by simp [walkList, tagsL]⟩,
     fun hng => absurd (by simp [GoodL, hasBadPrimL, tagsL]) hng⟩
  | v :: rest, seen => by
    have ihv := walk_spec v seen
    have ihr := walkL_spec rest ((tagsVal v).reverse ++ seen)
    constructor
    · intro hg
      rw [goodL_cons_iff] at hg
      obtain ⟨hgv, hgr⟩ := hg
      obtain ⟨out, hout⟩ := ihv.1 hgv
      obtain ⟨outs, houts⟩ := ihr.1 hgr
      refine ⟨(out.getD Json.null) :: outs, ?_⟩
      simp only [walkList, hout, houts]
      simp [tagsL, List.reverse_append, List.append_assoc]
    · intro hng
      rw [goodL_cons_iff] at hng
      by_cases hgv : Good v seen
      · have hngr := fun h => hng ⟨hgv, h⟩
        obtain ⟨out, hout⟩ := ihv.1 hgv
        have herr := ihr.2 hngr
        simp [walkList, hout, herr]
      · have herr := ihv.2 hgv
        simp [walkList, herr]

theorem walkF_spec : ∀ (l : List (String × JsVal)) (seen : List Nat),
    (GoodF l seen → ∃ outs, walkFields seen l =
      .ok (outs, (tagsF l).reverse ++ seen)) ∧
    (¬ GoodF l seen → walkFields seen l = .error .validation)
  | [], seen =>
    ⟨fun _ => ⟨[], by simp [walkFields, tagsF]⟩,
     fun hng => absurd (by simp [GoodF, hasBadPrimF, tagsF]) hng⟩
  | (k, v) :: rest, seen => by
    have ihv := walk_spec v seen
    have ihr := walkF_spec rest ((tagsVal v).reverse ++ seen)
    constructor
    · intro hg
      rw [goodF_cons_iff] at hg
      obtain ⟨hgv, hgr⟩ := hg
      obtain ⟨out, hout⟩ := ihv.1 hgv
      obtain ⟨outs, houts⟩ := ihr.1 hgr
      refine ⟨(match out with
               | some jv => (k, jv) :: outs
               | none => outs), ?_⟩
      simp only [walkFields, hout, houts]
      simp only [tagsF, List.reverse_append, List.append_assoc,
        Except.ok.injEq, Prod.mk.injEq, and_true]
      cases out <;> rfl
    · intro hng
      rw [goodF_cons_iff] at hng
      by_cases hgv : Good v seen
      · have hngr := fun h => hng ⟨hgv, h⟩
        obtain ⟨out, hout⟩ := ihv.1 hgv
        have herr := ihr.2 hngr
        simp [walkFields, hout, herr]
      · have herr := ihv.2 hgv
        simp [walkFields, herr]

end

theorem setDataRootRejects_iff (v : JsVal) :
    setDataRootRejects v = false ↔ ∃ t pl f, v = JsVal.obj t pl f := by
  cases v with
  | prim p =>
    cases p <;> simp [setDataRootRejects, isFalsy, typeofStr, isArray]
  | arr t elts => simp [setDataRootRejects, isFalsy, typeofStr, isArray]
  | obj t pl f =>
    simp [setDataRootRejects, isFalsy, typeofStr, isArray]

/-- C6 (amended): with a loaded store, `setData(v)` rejects with
`ValidationError` if and only if `v` is not a non-array object value (any
prototype), or the serialization walk meets a function, symbol or BigInt,
or some object or array reference repeats (cycles and shared references
alike); and every non-array object free of those is accepted.  Plainness
of the prototype is not checked on write. -/
theorem setData_validation_iff (env : Env) (st : SLSState)
    (c : PersistedConfig) (d : KeyId) (v : JsVal)
    (hst : st.config = some c) (hdek : st.dek = some d) :
    (setDataDevice env v st = .error SlsErr.validation ↔
      ((¬ ∃ t pl f, v = JsVal.obj t pl f) ∨ hasBadPrim v = true ∨
        ¬ (tagsVal v).Nodup)) ∧
    (((∃ t pl f, v = JsVal.obj t pl f) ∧ hasBadPrim v = false ∧
        (tagsVal v).Nodup) → ∃ st', setDataDevice env v st = .ok st') := by
  have hens : ensureDekLoaded env false c st = .ok (d, st) := by
    simp [ensureDekLoaded, hdek]
  by_cases hroot : setDataRootRejects v = true
  · have hnobj : ¬ ∃ t pl f, v = JsVal.obj t pl f := by
      rw [← setDataRootRejects_iff]
      simp [hroot]
    constructor
    · simp only [setDataDevice, hst, hens, if_pos hroot]
      simp only [eq_self_iff_true, true_iff]
      exact Or.inl hnobj
    · intro ⟨hobj, _, _⟩
      exact absurd hobj hnobj
  · have hobj := (setDataRootRejects_iff v).mp (by simpa using hroot)
    obtain ⟨t, pl, fields, hv⟩ := hobj
    subst hv
    have hGoodIff : Good (JsVal.obj t pl fields) [] ↔
        (hasBadPrim (JsVal.obj t pl fields) = false ∧
          (tagsVal (JsVal.obj t pl fields)).Nodup) := by
      simp [Good]
    by_cases hg : Good (JsVal.obj t pl fields) []
    · have hgf : GoodF fields [t] := ((good_obj_iff t pl fields []).mp hg).2
      obtain ⟨outs, houts⟩ := (walkF_spec fields [t]).1 hgf
      have hwv : walkVal [] (JsVal.obj t pl fields) =
          .ok (some (Json.obj outs), (tagsF fields).reverse ++ [t]) := by
        simp [walkVal, houts]
      have htp : toPlainJson (JsVal.obj t pl fields) =
          .ok (Json.obj outs) := by
        simp [toPlainJson, hwv]
      constructor
      · simp only [setDataDevice, hst, hens, if_neg hroot, htp]
        have := hGoodIff.mp hg
        simp [this.1, this.2]
      · intro _
        simp only [setDataDevice, hst, hens, if_neg hroot, htp]
        exact ⟨_, rfl⟩
    · have hw := (walk_spec (JsVal.obj t pl fields) []).2 hg
      have htp : toPlainJson (JsVal.obj t pl fields) =
          .error .validation := by
        simp [toPlainJson, hw]
      constructor
      · simp only [setDataDevice, hst, hens, if_neg hroot, htp]
        have := (not_iff_not.mpr hGoodIff).mp hg
        simp only [not_and_or, Bool.not_eq_false] at this
        simp [this]
      · intro ⟨_, hbad, hnd⟩
        exact absurd (hGoodIff.mpr ⟨hbad, hnd⟩) hg

/-- A non-plain object (prototype other than `Object.prototype`, e.g. a
class instance) holding one JSON-serializable field. -/
def ceNonPlain : JsVal := JsVal.obj 0 false [("x", JsVal.prim (JsPrim.num 1))]

/-- A plain, acyclic, JSON-serializable object whose two fields reference
the same sub-object (one shared reference, tag 1). -/
def ceShared : JsVal :=
  JsVal.obj 0 true [("p", JsVal.obj 1 true []), ("q", JsVal.obj 1 true [])]

/-- C6 counterexample: `setData` does not reject exactly the non-plain
objects.  On the concrete fresh store, a class-instance-like value (not a
plain object) is accepted, while a plain JSON-serializable object whose two
fields share one reference is rejected with `ValidationError` (the
`WeakSet` in `toPlainJson` treats the second occurrence as circular). -/
theorem setData_not_iff_plain_object :
    (¬ ∃ t f, ceNonPlain = JsVal.obj t true f) ∧
    (∃ st', setDataDevice env0 ceNonPlain state1 = .ok st') ∧
    (∃ t f, ceShared = JsVal.obj t true f) ∧
    hasBadPrim ceShared = false ∧
    setDataDevice env0 ceShared state1 = .error .validation := by
  refine ⟨?_, ⟨_, rfl⟩, ⟨0, _, rfl⟩, rfl, rfl⟩
  intro ⟨t, f, h⟩
  simp [ceNonPlain] at h

/-- C6 witness: the amended characterization applied on the concrete fresh
store to a plain object with one numeric field: it is accepted. -/
theorem setData_validation_witness :
    ∃ st', setDataDevice env0
      (JsVal.obj 5 true [("a", JsVal.prim (JsPrim.num 1))]) state1 =
      .ok st' :=
  (setData_validation_iff env0 state1 cfg1 (KeyId.fresh 0)
    (JsVal.obj 5 true [("a", JsVal.prim (JsPrim.num 1))])
    (by rfl) (by rfl)).2 ⟨⟨5, true, _, rfl⟩, rfl, by decide⟩

end SLS
